import Mathlib

/-!
A verification development for the versioned configuration migration engine
of git-z (src/config.rs, src/config/updater.rs, src/config/updater/common.rs,
src/config/updater/from_v0_1.rs, src/config/updater/from_v0_2_dev_*.rs).

The TOML concrete syntax tree of the `toml_edit` crate is embedded as an
ordered list of entries, each carrying its leading comment block ("decor")
and its value; tables nest one level (the configuration format never nests
deeper).  Text algorithms (Rust `str::replace`, the single ticket-line
regex substitution, `str::trim`, `splitn`) are embedded over `List Char`.
`serde` parsing of the typed schema snapshots is embedded as structural
projections of the document (unknown fields are ignored, exactly as serde
does by default).  Rust panics (`expect`) are embedded as `Option.none`.
Reading the file from disk and lexing the raw TOML text are outside the
model: functions take the already-parsed document, and "the serialized
text re-parses" is stated as the parser applied to the migrated document.
-/

namespace GitZ

/-! ## Text primitives (over `List Char`)

Rust `str` algorithms used by the migration engine.  `Char.isWhitespace`
agrees with Rust `char::is_whitespace` on the ASCII inputs the
configuration files are made of. -/

/-- Whether `pat` occurs as a contiguous substring, Rust `str::contains`. -/
def containsSub (pat : List Char) : List Char → Bool
  | [] => pat.isEmpty
  | c :: rest => pat.isPrefixOf (c :: rest) || containsSub pat rest

/-- Fuelled worker for `replaceAll`; structural on the fuel so that the
kernel can evaluate it.  With fuel at least the length of the text it
replaces every non-overlapping occurrence of `pat`, leftmost first, as
Rust `str::replace` does. -/
def replaceAllGo (pat rep : List Char) : Nat → List Char → List Char
  | _, [] => []
  | 0, s => s
  | fuel + 1, c :: rest =>
    if pat ≠ [] ∧ pat.isPrefixOf (c :: rest) then
      rep ++ replaceAllGo pat rep fuel ((c :: rest).drop pat.length)
    else
      c :: replaceAllGo pat rep fuel rest

/-- Rust `str::replace`: replace every occurrence of `pat` by `rep`. -/
def replaceAll (pat rep s : List Char) : List Char :=
  replaceAllGo pat rep s.length s

/-- Rust `s.replace(pat, rep)` on strings. -/
def replaceStr (s pat rep : String) : String :=
  ⟨replaceAll pat.data rep.data s.data⟩

/-- Rust `str::trim_start` (ASCII whitespace). -/
def trimStartChars (s : List Char) : List Char :=
  s.dropWhile Char.isWhitespace

/-- Rust `str::trim_end` (ASCII whitespace). -/
def trimEndChars (s : List Char) : List Char :=
  (s.reverse.dropWhile Char.isWhitespace).reverse

/-- Rust `str::trim` (ASCII whitespace). -/
def trimChars (s : List Char) : List Char :=
  trimEndChars (trimStartChars s)

/-- Rust `str::trim_start` on strings. -/
def trimStartStr (s : String) : String := ⟨trimStartChars s.data⟩

/-- Split on newline characters, Rust-regex line structure: `n` newline
characters give `n + 1` pieces, none of which contains a newline. -/
def splitOnNl : List Char → List (List Char)
  | [] => [[]]
  | c :: rest =>
    if c = '\n' then [] :: splitOnNl rest
    else
      match splitOnNl rest with
      | [] => [[c]]
      | l :: ls => (c :: l) :: ls

/-- Rejoin the pieces produced by `splitOnNl`, inverse on newline-free
pieces. -/
def joinNl : List (List Char) → List Char
  | [] => []
  | [l] => l
  | l :: l2 :: ls => l ++ '\n' :: joinNl (l2 :: ls)

/-- The ticket placeholder searched for by the template regex
`(.*\x7b\x7b ticket \x7d\x7d.*)` of `common.rs` and `from_v0_1.rs`. -/
def PLACEHOLDER : List Char := "\x7b\x7b ticket \x7d\x7d".data

/-- The effect of the regex substitution on the matched line: the line is
wrapped in a Tera conditional block. -/
def wrapLine (l : List Char) : List Char :=
  "\x7b% if ticket %\x7d".data ++ l ++ "\x7b% endif %\x7d".data

/-- `Regex::replace` semantics of the ticket-line regex: since `.` does not
match a newline, the leftmost-first match is the whole first line that
contains the placeholder; only that line is rewritten. -/
def wrapFirstTicketLine : List (List Char) → List (List Char)
  | [] => []
  | l :: ls =>
    if containsSub PLACEHOLDER l then wrapLine l :: ls
    else l :: wrapFirstTicketLine ls

/-- `add_ticket_condition_to_commit_template` of `common.rs:147-153` and
`from_v0_1.rs:265-271` (the two files hold the same function). -/
def add_ticket_condition_to_commit_template (template : String) : String :=
  ⟨joinNl (wrapFirstTicketLine (splitOnNl template.data))⟩

/-- `remove_hash_ticket_prefix_from_commit_template` of `common.rs:156-160`
and `from_v0_1.rs:274-276`. -/
def remove_hash_ticket_prefix_from_commit_template (template : String) : String :=
  replaceStr template "#\x7b\x7b ticket \x7d\x7d" "\x7b\x7b ticket \x7d\x7d"

/-- Rust `splitn(2, ' ')`: the piece before the first space, and the
remainder after it when a space exists. -/
def splitn2Space : List Char → List Char × Option (List Char)
  | [] => ([], none)
  | c :: rest =>
    if c = ' ' then ([], some rest)
    else
      let p := splitn2Space rest
      (c :: p.1, p.2)

/-- `split_type_and_doc` of `config.rs:290-295`: split a v0.1
`"type description"` string on the first space; the documentation part is
trimmed, and defaults to the empty string when there is no space. -/
def split_type_and_doc (s : String) : String × String :=
  let p := splitn2Space s.data
  (⟨p.1⟩, ⟨trimChars (p.2.getD [])⟩)

/-- `split_types_and_docs` of `config.rs:281-287`. -/
def split_types_and_docs (types : List String) : List (String × String) :=
  types.map split_type_and_doc

/-! ## The editable document (the `toml_edit::Document` embedding) -/

/-- A TOML value as used by the configuration formats. -/
inductive TVal : Type
  | str (s : String)
  | boolean (b : Bool)
  | int (n : Int)
  | arr (xs : List TVal)

/-- A key of a table, with its leading comment block and its value. -/
structure KV : Type where
  key : String
  decor : String
  val : TVal

/-- An item of the document: a plain value or a (one-level) table. -/
inductive TItem : Type
  | value (v : TVal)
  | table (entries : List KV)

/-- A top-level entry: key, its leading comment block, and its item.  For a
table item the decor slot holds the table decor (the comment block printed
before the table header). -/
structure Entry : Type where
  key : String
  decor : String
  item : TItem

/-- The editable document: ordered top-level entries. -/
abbrev Doc := List Entry

/-- First entry with the given key (keys are unique in parsed TOML). -/
def lookupEntry : Doc → String → Option Entry
  | [], _ => none
  | e :: rest, k => if e.key = k then some e else lookupEntry rest k

/-- `toml_edit` insert: replace the entry at an existing key in place,
otherwise append at the end. -/
def setEntry : Doc → String → Entry → Doc
  | [], _, e => [e]
  | x :: rest, k, e => if x.key = k then e :: rest else x :: setEntry rest k e

/-- `toml_edit` remove of a top-level key. -/
def removeKey : Doc → String → Doc
  | [], _ => []
  | x :: rest, k => if x.key = k then rest else x :: removeKey rest k

/-- First key of a table with the given name. -/
def lookupKV : List KV → String → Option KV
  | [], _ => none
  | kv :: rest, k => if kv.key = k then some kv else lookupKV rest k

/-- Table insert: replace the value at an existing key in place (keeping
the key decor), otherwise append with an empty decor. -/
def setKVval : List KV → String → TVal → List KV
  | [], k, v => [⟨k, "", v⟩]
  | kv :: rest, k, v =>
    if kv.key = k then ⟨kv.key, kv.decor, v⟩ :: rest else kv :: setKVval rest k v

/-- Set the leading comment block of a table key. -/
def setKVdecor : List KV → String → String → List KV
  | [], _, _ => []
  | kv :: rest, k, d =>
    if kv.key = k then ⟨kv.key, d, kv.val⟩ :: rest else kv :: setKVdecor rest k d

/-- Table remove. -/
def removeKV : List KV → String → List KV
  | [], _ => []
  | kv :: rest, k => if kv.key = k then rest else kv :: removeKV rest k

/-- All elements are TOML strings; yields them (serde `Vec<String>`). -/
def allStrings : List TVal → Option (List String)
  | [] => some []
  | TVal.str s :: rest => (allStrings rest).map (s :: ·)
  | _ :: _ => none

/-- Look up a top-level key holding a string value. -/
def getStr (doc : Doc) (k : String) : Option String :=
  match lookupEntry doc k with
  | some ⟨_, _, TItem.value (TVal.str s)⟩ => some s
  | _ => none

/-- Look up a top-level key holding an array of strings. -/
def getStrArr (doc : Doc) (k : String) : Option (List String) :=
  match lookupEntry doc k with
  | some ⟨_, _, TItem.value (TVal.arr xs)⟩ => allStrings xs
  | _ => none

/-- Look up a table key holding a string value. -/
def kvStr (es : List KV) (k : String) : Option String :=
  match lookupKV es k with
  | some ⟨_, _, TVal.str s⟩ => some s
  | _ => none

/-- Look up a table key holding a boolean value. -/
def kvBool (es : List KV) (k : String) : Option Bool :=
  match lookupKV es k with
  | some ⟨_, _, TVal.boolean b⟩ => some b
  | _ => none

/-- Look up a table key holding an array of strings. -/
def kvStrArr (es : List KV) (k : String) : Option (List String) :=
  match lookupKV es k with
  | some ⟨_, _, TVal.arr xs⟩ => allStrings xs
  | _ => none

/-! ## Schema snapshots -/

/-- The current version constant, `config.rs:118`. -/
def VERSION : String := "0.2"

/-- The development versions recognized by `Config::from_toml`,
`config.rs:211-212`. -/
def DEV_VERSIONS : List String :=
  ["0.2-dev.0", "0.2-dev.1", "0.2-dev.2", "0.2-dev.3"]

/-- The v0.1 schema snapshot, `config/v0_1.rs`. -/
structure ConfigV01 : Type where
  version : String
  types : List String
  scopes : List String
  template : String
  ticket_prefixes : List String

/-- `Scopes` of `config/v0_2.rs` (serde tag `accept`). -/
inductive Scopes : Type
  | any
  | list (list : List String)

/-- `Ticket` of `config/v0_2.rs`. -/
structure Ticket : Type where
  required : Bool
  prefixes : List String

/-- `Templates` of `config/v0_2.rs`. -/
structure Templates : Type where
  commit : String

/-- The current typed configuration, `config/v0_2.rs` (the `IndexMap` of
types is an ordered association list). -/
structure Config : Type where
  version : String
  types : List (String × String)
  scopes : Option Scopes
  ticket : Option Ticket
  templates : Templates

/-- `impl From<v0_1::Config> for Config`, `config.rs:258-273`: the version
string is carried over unchanged. -/
def config_from_v0_1 (old : ConfigV01) : Config :=
  { version := old.version
    types := split_types_and_docs old.types
    scopes := some (Scopes.list old.scopes)
    ticket := some ⟨true, old.ticket_prefixes⟩
    templates := ⟨old.template⟩ }

/-! ## serde parsing of the snapshots (structural projection of the
document; unknown fields are ignored, as serde does by default) -/

/-- serde parse of the v0.1 snapshot from the document data. -/
def parse_v0_1 (doc : Doc) : Option ConfigV01 :=
  match getStr doc "version", getStrArr doc "types", getStrArr doc "scopes",
        getStr doc "template", getStrArr doc "ticket_prefixes" with
  | some version, some types, some scopes, some template, some tps =>
    some ⟨version, types, scopes, template, tps⟩
  | _, _, _, _, _ => none

/-- The `types` table as an `IndexMap<String, String>`: all values must be
strings. -/
def typePairs : List KV → Option (List (String × String))
  | [] => some []
  | kv :: rest =>
    match kv.val with
    | TVal.str s => (typePairs rest).map ((kv.key, s) :: ·)
    | _ => none

/-- The `types` field of the current schema. -/
def parseTypesAt (doc : Doc) : Option (List (String × String)) :=
  match lookupEntry doc "types" with
  | some ⟨_, _, TItem.table es⟩ => typePairs es
  | _ => none

/-- serde internally-tagged parse of `Scopes` from a `scopes` table. -/
def parseScopesTable (es : List KV) : Option Scopes :=
  match kvStr es "accept" with
  | some "any" => some Scopes.any
  | some "list" => (kvStrArr es "list").map Scopes.list
  | _ => none

/-- The optional `scopes` field: absent is fine, a present entry must be a
table parsing as `Scopes`. -/
def parseScopesAt (doc : Doc) : Option (Option Scopes) :=
  match lookupEntry doc "scopes" with
  | none => some none
  | some ⟨_, _, TItem.table es⟩ => (parseScopesTable es).map some
  | some _ => none

/-- serde parse of `Ticket` from a `ticket` table. -/
def parseTicketTable (es : List KV) : Option Ticket :=
  match kvBool es "required", kvStrArr es "prefixes" with
  | some required, some prefixes => some ⟨required, prefixes⟩
  | _, _ => none

/-- The optional `ticket` field: absent is fine, a present entry must be a
table parsing as `Ticket`. -/
def parseTicketAt (doc : Doc) : Option (Option Ticket) :=
  match lookupEntry doc "ticket" with
  | none => some none
  | some ⟨_, _, TItem.table es⟩ => (parseTicketTable es).map some
  | some _ => none

/-- serde parse of `Templates` from a `templates` table. -/
def parseTemplatesTable (es : List KV) : Option Templates :=
  (kvStr es "commit").map Templates.mk

/-- The mandatory `templates` field. -/
def parseTemplatesAt (doc : Doc) : Option Templates :=
  match lookupEntry doc "templates" with
  | some ⟨_, _, TItem.table es⟩ => parseTemplatesTable es
  | _ => none

/-- serde parse of the current snapshot from the document data. -/
def parse_v0_2 (doc : Doc) : Option Config :=
  match getStr doc "version", parseTypesAt doc, parseScopesAt doc,
        parseTicketAt doc, parseTemplatesAt doc with
  | some version, some types, some scopes, some ticket, some templates =>
    some ⟨version, types, scopes, ticket, templates⟩
  | _, _, _, _, _ => none

/-- Errors of `Config::from_toml`, `config.rs:61-79`.  `ParseError` wraps
the underlying TOML syntax error, which the model does not carry. -/
inductive FromTomlError : Type
  | UnsupportedVersion (version : String)
  | UnsupportedDevelopmentVersion (version : String) (gitz_version : String)
  | ParseError

/-- `Config::from_toml`, `config.rs:193-224`: a minimal parse extracts only
the `version` field, then dispatch on the version string decides whether
to parse the full current schema, to parse the v0.1 snapshot and convert
it forward, or to fail with the version taxonomy errors. -/
def from_toml (doc : Doc) : Except FromTomlError Config :=
  match getStr doc "version" with
  | none => Except.error FromTomlError.ParseError
  | some v =>
    if v = VERSION then
      match parse_v0_2 doc with
      | some c => Except.ok c
      | none => Except.error FromTomlError.ParseError
    else if v = "0.1" then
      match parse_v0_1 doc with
      | some c => Except.ok (config_from_v0_1 c)
      | none => Except.error FromTomlError.ParseError
    else if v ∈ DEV_VERSIONS then
      Except.error (FromTomlError.UnsupportedDevelopmentVersion v "0.2.0")
    else
      Except.error (FromTomlError.UnsupportedVersion v)

/-! ## Documentation comment blocks (`common.rs:30-109`) -/

/-- `common.rs` `OLD_TYPES_DOC`. -/
def OLD_TYPES_DOC : String := "\n# The available types of commits.\n"

/-- `common.rs` `NEW_TYPES_DOC`; the canonical current `types` doc. -/
def NEW_TYPES_DOC : String :=
  "\n# The available types of commits and their description.\n#\n# Types are shown in the dialog in the order they appear in this configuration.\n"

/-- `common.rs` `OLD_SCOPES_DOC`. -/
def OLD_SCOPES_DOC : String := "\n# The accepted scopes.\n"

/-- `common.rs` `NEW_SCOPES_DOC`; the canonical current `scopes` doc. -/
def NEW_SCOPES_DOC : String :=
  "\n# The accepted scopes.\n#\n# This table is optional: if omitted, no scope will be asked for.\n"

/-- `common.rs` `SCOPES_ACCEPT_DOC`. -/
def SCOPES_ACCEPT_DOC : String :=
  "# What kind of scope to accept.\n#\n# Can be one of: \"any\", \"list\". If it is \"list\", a `list` key containing a list\n# of valid scopes is required.\n"

/-- `common.rs` `TICKET_DOC`. -/
def TICKET_DOC : String :=
  "\n# The ticket / issue reference configuration.\n#\n# This table is optional: if omitted, no ticket will be asked for.\n"

/-- `common.rs` `TICKET_REQUIRED_DOC`. -/
def TICKET_REQUIRED_DOC : String :=
  "# Set to true to require a ticket number.\n# Set to false to ask for a ticket without requiring it.\n"

/-- `common.rs` `OLD_TICKET_PREFIXES_DOC`. -/
def OLD_TICKET_PREFIXES_DOC : String := "# The list of valid ticket prefixes.\n"

/-- `common.rs` `NEW_TICKET_PREFIXES_DOC`. -/
def NEW_TICKET_PREFIXES_DOC : String :=
  "# The list of valid ticket prefixes.\n#\n# Can be a `#` for GitHub / GitLab issues, or a Jira key for instance.\n"

/-- `common.rs` `TEMPLATES_DOC`. -/
def TEMPLATES_DOC : String :=
  "\n# Templates written with the Tera [1] templating engine.\n#\n# Each template is documented below, with its list of available variables.\n# Variables marked as optional can be `None`, hence should be checked for\n# presence in the template.\n#\n# [1] https://tera.netlify.app/\n"

/-- `common.rs` `OLD_TEMPLATES_COMMIT_DOC`. -/
def OLD_TEMPLATES_COMMIT_DOC : String :=
  "# The commit message template, written with the Tera [1] templating engine.\n# [1] https://tera.netlify.app/\n"

/-- `common.rs` `NEW_TEMPLATES_COMMIT_DOC`. -/
def NEW_TEMPLATES_COMMIT_DOC : String :=
  "# The commit template.\n#\n# Available variables:\n#\n#   - type: the type of commit\n#   - scope (optional): the scope of the commit\n#   - description: the short description\n#   - breaking_change (optional): the description of the breaking change\n#   - ticket (optional): the ticket reference\n"

/-- `from_v0_1.rs` `OLD_TYPES_DOC` (the v0.1-era boilerplate). -/
def V01_OLD_TYPES_DOC : String :=
  "\n# The available types of commits.\n#\n# This is a list of types (1 word) and their description, separated by one or\n# more spaces.\n"

/-- `from_v0_1.rs` `OLD_SCOPES_DOC`. -/
def V01_OLD_SCOPES_DOC : String := "\n# The list of valid scopes.\n"

/-- `from_v0_1.rs` `OLD_TICKET_PREFIXES_DOC`. -/
def V01_OLD_TICKET_PREFIXES_DOC : String := "# The list of valid ticket prefixes.\n"

/-- `from_v0_1.rs` `OLD_TEMPLATES_COMMIT_DOC`. -/
def V01_OLD_TEMPLATES_COMMIT_DOC : String :=
  "# The commit message template, written with the Tera [1] templating engine.\n# [1] https://tera.netlify.app/\n"

/-! ## Common updater helpers (`common.rs`)

Rust `expect` panics become `Option.none`. -/

/-- Whether to ask and require a ticket, `updater.rs:47-55`. -/
inductive AskForTicket : Type
  | ask (require : Bool)
  | dontAsk

/-- `update_version` of `common.rs:112-115`: overwrite the `version` item
with the current version constant; the key and its decor are kept. -/
def update_version (doc : Doc) : Option Doc :=
  match lookupEntry doc "version" with
  | some e => some (setEntry doc "version" { e with item := TItem.value (TVal.str VERSION) })
  | none => none

/-- `switch_scopes_to_any` of `common.rs:118-127`. -/
def switch_scopes_to_any (doc : Doc) : Option Doc :=
  match lookupEntry doc "scopes" with
  | none => some doc
  | some e =>
    match e.item with
    | TItem.table es =>
      some (setEntry doc "scopes"
        ⟨e.key, e.decor, TItem.table (removeKV (setKVval es "accept" (TVal.str "any")) "list")⟩)
    | _ => none

/-- Replace the first empty string of the array; a non-string element
encountered before an empty one is a panic.  Worker for
`empty_prefix_to_hash` / `replace_empty_prefix_with_hash`. -/
def replaceFirstEmpty : List TVal → Option (List TVal)
  | [] => some []
  | TVal.str s :: rest =>
    if s = "" then some (TVal.str "#" :: rest)
    else (replaceFirstEmpty rest).map (TVal.str s :: ·)
  | _ :: _ => none

/-- `empty_prefix_to_hash` of `common.rs:130-144`: in the `ticket.prefixes`
array, the first empty prefix becomes `#`. -/
def empty_prefix_to_hash : TVal → Option TVal
  | TVal.arr xs => (replaceFirstEmpty xs).map TVal.arr
  | _ => none

/-- `replace_empty_prefix_with_hash` of `from_v0_1.rs:197-211` (the same
function as `empty_prefix_to_hash` of `common.rs`). -/
def replace_empty_prefix_with_hash : TVal → Option TVal := empty_prefix_to_hash

/-- `update_types_doc` of `common.rs:163-178`: in the decor of the `types`
table, replace the old boilerplate (as a substring) by the new one. -/
def update_types_doc (doc : Doc) : Option Doc :=
  match lookupEntry doc "types" with
  | some e =>
    match e.item with
    | TItem.table es =>
      some (setEntry doc "types"
        ⟨e.key, replaceStr e.decor OLD_TYPES_DOC NEW_TYPES_DOC, TItem.table es⟩)
    | _ => none
  | none => none

/-- `update_scopes_accept_doc` of `common.rs:204-220`: the canonical doc is
written only when the existing `scopes.accept` decor is whitespace-only. -/
def update_scopes_accept_doc (es : List KV) : Option (List KV) :=
  match lookupKV es "accept" with
  | some kv =>
    if (trimChars kv.decor.data).isEmpty then
      some (setKVdecor es "accept" SCOPES_ACCEPT_DOC)
    else
      some es
  | none => none

/-- `update_scopes_doc` of `common.rs:181-201`. -/
def update_scopes_doc (doc : Doc) : Option Doc :=
  match lookupEntry doc "scopes" with
  | none => some doc
  | some e =>
    match e.item with
    | TItem.table es =>
      match update_scopes_accept_doc es with
      | some es2 =>
        some (setEntry doc "scopes"
          ⟨e.key, replaceStr e.decor OLD_SCOPES_DOC NEW_SCOPES_DOC, TItem.table es2⟩)
      | none => none
    | _ => none

/-- `update_ticket_required_doc` of `common.rs:249-265`. -/
def update_ticket_required_doc (es : List KV) : Option (List KV) :=
  match lookupKV es "required" with
  | some kv =>
    if (trimChars kv.decor.data).isEmpty then
      some (setKVdecor es "required" TICKET_REQUIRED_DOC)
    else
      some es
  | none => none

/-- `update_ticket_prefixes_doc` of `common.rs:268-284`. -/
def update_ticket_prefixes_doc (es : List KV) : Option (List KV) :=
  match lookupKV es "prefixes" with
  | some kv =>
    some (setKVdecor es "prefixes"
      (replaceStr kv.decor OLD_TICKET_PREFIXES_DOC NEW_TICKET_PREFIXES_DOC))
  | none => none

/-- `update_ticket_doc` of `common.rs:223-246`. -/
def update_ticket_doc (doc : Doc) : Option Doc :=
  match lookupEntry doc "ticket" with
  | none => some doc
  | some e =>
    match e.item with
    | TItem.table es =>
      match update_ticket_required_doc es with
      | some es2 =>
        match update_ticket_prefixes_doc es2 with
        | some es3 =>
          some (setEntry doc "ticket"
            ⟨e.key,
             if (trimChars e.decor.data).isEmpty then TICKET_DOC else e.decor,
             TItem.table es3⟩)
        | none => none
      | none => none
    | _ => none

/-- `update_templates_commit_doc` of `common.rs:312-328`. -/
def update_templates_commit_doc (es : List KV) : Option (List KV) :=
  match lookupKV es "commit" with
  | some kv =>
    some (setKVdecor es "commit"
      (replaceStr kv.decor OLD_TEMPLATES_COMMIT_DOC NEW_TEMPLATES_COMMIT_DOC))
  | none => none

/-- `update_templates_doc` of `common.rs:287-309`. -/
def update_templates_doc (doc : Doc) : Option Doc :=
  match lookupEntry doc "templates" with
  | some e =>
    match e.item with
    | TItem.table es =>
      match update_templates_commit_doc es with
      | some es2 =>
        some (setEntry doc "templates"
          ⟨e.key,
           if (trimChars e.decor.data).isEmpty then TEMPLATES_DOC else e.decor,
           TItem.table es2⟩)
      | none => none
    | _ => none
  | none => none

/-! ## The v0.1 migration transform (`from_v0_1.rs`)

The current canonical doc blocks referenced there (`common::TYPES_DOC` and
friends) are the `NEW_*` constants of `common.rs`. -/

/-- `update_types` of `from_v0_1.rs:78-108`: the flat array of
`"type description"` strings becomes a table, in place; the decor moves
onto the table with the v0.1 boilerplate replaced. -/
def v01_update_types (doc : Doc) : Option Doc :=
  match lookupEntry doc "types" with
  | some e =>
    match e.item with
    | TItem.value (TVal.arr xs) =>
      match allStrings xs with
      | some strs =>
        some (setEntry doc "types"
          ⟨"types", replaceStr e.decor V01_OLD_TYPES_DOC NEW_TYPES_DOC,
           TItem.table (strs.map fun s =>
             ⟨(split_type_and_doc s).1, "", TVal.str (split_type_and_doc s).2⟩)⟩)
      | none => none
    | _ => none
  | none => none

/-- `update_scopes` of `from_v0_1.rs:111-145`: the plain scope list becomes
a tagged table `accept = "any"`, or `accept = "list"` plus the old list. -/
def v01_update_scopes (doc : Doc) (switch_scopes_to_any : Bool) : Option Doc :=
  match lookupEntry doc "scopes" with
  | some e =>
    match e.item with
    | TItem.value v =>
      some (setEntry doc "scopes"
        ⟨"scopes", replaceStr e.decor V01_OLD_SCOPES_DOC NEW_SCOPES_DOC,
         TItem.table
           (if switch_scopes_to_any then
              [⟨"accept", SCOPES_ACCEPT_DOC, TVal.str "any"⟩]
            else
              [⟨"accept", SCOPES_ACCEPT_DOC, TVal.str "list"⟩,
               ⟨"list", "", v⟩])⟩)
    | _ => none
  | none => none

/-- The prefix-list rewrite guarded by the `empty_prefix_to_hash` decision,
`from_v0_1.rs:164-168`: the value is rewritten only when the decision is
true, otherwise it is passed through unchanged. -/
def prefixes_after_decision (empty_prefix_to_hash_d : Bool) (v : TVal) : Option TVal :=
  if empty_prefix_to_hash_d then replace_empty_prefix_with_hash v else some v

/-- `update_ticket` of `from_v0_1.rs:148-194`: the flat `ticket_prefixes`
list becomes a `ticket` table with `required` (from the decision) and
`prefixes` (rewriting the first empty prefix to `#` when asked to). -/
def v01_update_ticket (doc : Doc) (required empty_prefix_to_hash_d : Bool) : Option Doc :=
  match lookupEntry doc "ticket_prefixes" with
  | some e =>
    match e.item with
    | TItem.value v =>
      match prefixes_after_decision empty_prefix_to_hash_d v with
      | some prefixes =>
        some (setEntry (removeKey doc "ticket_prefixes") "ticket"
          ⟨"ticket", TICKET_DOC,
           TItem.table
             [⟨"required", TICKET_REQUIRED_DOC, TVal.boolean required⟩,
              ⟨"prefixes",
               replaceStr (trimStartStr e.decor) V01_OLD_TICKET_PREFIXES_DOC NEW_TICKET_PREFIXES_DOC,
               prefixes⟩]⟩)
      | none => none
    | _ => none
  | none => none

/-- `remove_ticket` of `from_v0_1.rs:214-216`. -/
def v01_remove_ticket (doc : Doc) : Doc :=
  removeKey doc "ticket_prefixes"

/-- `update_templates` of `from_v0_1.rs:219-262`: the bare `template`
string moves to a `templates.commit` entry; the template text gets the
ticket conditional and, when asked to, the hash-prefix removal. -/
def v01_update_templates (doc : Doc) (remove_hash_d : Bool) : Option Doc :=
  match lookupEntry doc "template" with
  | some e =>
    match e.item with
    | TItem.value (TVal.str t) =>
      some (setEntry (removeKey doc "template") "templates"
        ⟨"templates", TEMPLATES_DOC,
         TItem.table
           [⟨"commit",
             replaceStr (trimStartStr e.decor) V01_OLD_TEMPLATES_COMMIT_DOC NEW_TEMPLATES_COMMIT_DOC,
             TVal.str
               (if remove_hash_d then
                  remove_hash_ticket_prefix_from_commit_template
                    (add_ticket_condition_to_commit_template t)
                else
                  add_ticket_condition_to_commit_template t)⟩]⟩)
    | _ => none
  | none => none

/-- `update` of `from_v0_1.rs:57-75`: the v0.1 migration transform. -/
def from_v0_1_update (doc : Doc) (switch_scopes_to_any_d : Bool)
    (ask_for_ticket : AskForTicket) (empty_prefix_to_hash_d : Bool) : Option Doc := do
  let doc ← update_version doc
  let doc ← v01_update_types doc
  let doc ← v01_update_scopes doc switch_scopes_to_any_d
  let doc ←
    match ask_for_ticket with
    | AskForTicket.ask require => v01_update_ticket doc require empty_prefix_to_hash_d
    | AskForTicket.dontAsk => some (v01_remove_ticket doc)
  v01_update_templates doc empty_prefix_to_hash_d

/-! ## The development-version transforms (`from_v0_2_dev_*.rs`) -/

/-- `update` of `from_v0_2_dev_2.rs:23-29`. -/
def from_v0_2_dev_2_update (doc : Doc) (switch_d : Bool) : Option Doc := do
  let doc ← update_version doc
  if switch_d then switch_scopes_to_any doc else some doc

/-- `update_ticket_prefix` of `from_v0_2_dev_1.rs:52-62`. -/
def d1_update_ticket_prefixes (doc : Doc) : Option Doc :=
  match lookupEntry doc "ticket" with
  | none => some doc
  | some e =>
    match e.item with
    | TItem.table es =>
      match lookupKV es "prefixes" with
      | some kv =>
        match empty_prefix_to_hash kv.val with
        | some v2 => some (setEntry doc "ticket" ⟨e.key, e.decor, TItem.table (setKVval es "prefixes" v2)⟩)
        | none => none
      | none => none
    | _ => none

/-- `update_commit_template` of `from_v0_2_dev_1.rs:65-84`. -/
def d1_update_commit_template (doc : Doc) : Option Doc :=
  match lookupEntry doc "templates" with
  | some e =>
    match e.item with
    | TItem.table es =>
      match kvStr es "commit" with
      | some t =>
        some (setEntry doc "templates"
          ⟨e.key, e.decor,
           TItem.table (setKVval es "commit"
             (TVal.str (remove_hash_ticket_prefix_from_commit_template t)))⟩)
      | none => none
    | _ => none
  | none => none

/-- `update` of `from_v0_2_dev_1.rs:29-49`. -/
def from_v0_2_dev_1_update (doc : Doc) (switch_d empty_prefix_to_hash_d : Bool) :
    Option Doc := do
  let doc ← update_version doc
  let doc ← if switch_d then switch_scopes_to_any doc else some doc
  let doc ←
    if empty_prefix_to_hash_d then do
      let doc ← d1_update_ticket_prefixes doc
      d1_update_commit_template doc
    else some doc
  let doc ← update_types_doc doc
  let doc ← update_scopes_doc doc
  let doc ← update_ticket_doc doc
  update_templates_doc doc

/-- `update_ticket` of `from_v0_2_dev_0.rs:58-92`: the `prefixes` key is
taken out and re-inserted after `required`, keeping its decor. -/
def d0_update_ticket (doc : Doc) (required empty_prefix_to_hash_d : Bool) : Option Doc :=
  match lookupEntry doc "ticket" with
  | some e =>
    match e.item with
    | TItem.table es =>
      match lookupKV es "prefixes" with
      | some kv =>
        match (if empty_prefix_to_hash_d then empty_prefix_to_hash kv.val else some kv.val) with
        | some v2 =>
          some (setEntry doc "ticket"
            ⟨e.key, e.decor,
             TItem.table
               (setKVdecor
                 (setKVval (setKVval (removeKV es "prefixes") "required" (TVal.boolean required))
                   "prefixes" v2)
                 "prefixes" kv.decor)⟩)
        | none => none
      | none => none
    | _ => none
  | none => none

/-- `remove_ticket` of `from_v0_2_dev_0.rs:94-97`. -/
def d0_remove_ticket (doc : Doc) : Doc :=
  removeKey doc "ticket"

/-- `update_commit_template` of `from_v0_2_dev_0.rs:99-124`. -/
def d0_update_commit_template (doc : Doc) (remove_hash_d : Bool) : Option Doc :=
  match lookupEntry doc "templates" with
  | some e =>
    match e.item with
    | TItem.table es =>
      match kvStr es "commit" with
      | some t =>
        some (setEntry doc "templates"
          ⟨e.key, e.decor,
           TItem.table (setKVval es "commit"
             (TVal.str
               (if remove_hash_d then
                  remove_hash_ticket_prefix_from_commit_template
                    (add_ticket_condition_to_commit_template t)
                else
                  add_ticket_condition_to_commit_template t)))⟩)
      | none => none
    | _ => none
  | none => none

/-- `update` of `from_v0_2_dev_0.rs:29-57`. -/
def from_v0_2_dev_0_update (doc : Doc) (switch_d : Bool)
    (ask_for_ticket : AskForTicket) (empty_prefix_to_hash_d : Bool) : Option Doc := do
  let doc ← update_version doc
  let doc ← if switch_d then switch_scopes_to_any doc else some doc
  let doc ←
    match ask_for_ticket with
    | AskForTicket.ask require => d0_update_ticket doc require empty_prefix_to_hash_d
    | AskForTicket.dontAsk => some (d0_remove_ticket doc)
  let doc ← d0_update_commit_template doc empty_prefix_to_hash_d
  let doc ← update_types_doc doc
  let doc ← update_scopes_doc doc
  let doc ← update_ticket_doc doc
  update_templates_doc doc

/-! ## The updater state machine (`updater.rs`)

`ConfigUpdater<Init>` and `ConfigUpdater<Updated>` are two distinct record
types; only the latter exposes `save`.  The `update_from_*` methods return
`Option (Except ...)`: the outer `none` is a panic inside a transform
(impossible on documents validated by `load`), the `Except` is the
`IncorrectVersion` programmer-error guard.  On the error path the handle
is consumed and nothing is written, so the document on disk is untouched. -/

/-- `UpdateError` of `updater.rs:73-79`. -/
inductive UpdateError : Type
  | IncorrectVersion (tried_from actual : String)

/-- The `Init`-state updater: the typed config parsed at load time plus the
editable document parsed from the same text. -/
structure ConfigUpdaterInit : Type where
  parsed_config : Config
  toml_config : Doc

/-- The `Updated`-state updater; the only operation on it is `save`. -/
structure ConfigUpdaterUpdated : Type where
  parsed_config : Config
  toml_config : Doc

/-- `config_version` of `updater.rs:114-116`: the version as detected by
the typed parse at load time. -/
def config_version (u : ConfigUpdaterInit) : String :=
  u.parsed_config.version

/-- Load errors of `updater.rs:59-70` that the model can produce (path
resolution, I/O and raw-TOML lexing stay outside the model). -/
inductive UpdaterLoadError : Type
  | InvalidConfig (e : FromTomlError)

/-- `ConfigUpdater::<Init>::load`, `updater.rs:92-111`: the typed parse
validates the text, and the same text is kept as an editable document. -/
def updater_load (doc : Doc) : Except UpdaterLoadError ConfigUpdaterInit :=
  match from_toml doc with
  | Except.ok c => Except.ok ⟨c, doc⟩
  | Except.error e => Except.error (UpdaterLoadError.InvalidConfig e)

/-- `update_from_v0_1` of `updater.rs:197-223`. -/
def update_from_v0_1 (u : ConfigUpdaterInit) (switch_d : Bool)
    (ask : AskForTicket) (hash_d : Bool) :
    Option (Except UpdateError ConfigUpdaterUpdated) :=
  if config_version u = "0.1" then
    (from_v0_1_update u.toml_config switch_d ask hash_d).map
      (fun d => Except.ok ⟨u.parsed_config, d⟩)
  else
    some (Except.error (UpdateError.IncorrectVersion "0.1" (config_version u)))

/-- `update_from_v0_2_dev_0` of `updater.rs:168-194`. -/
def update_from_v0_2_dev_0 (u : ConfigUpdaterInit) (switch_d : Bool)
    (ask : AskForTicket) (hash_d : Bool) :
    Option (Except UpdateError ConfigUpdaterUpdated) :=
  if config_version u = "0.2-dev.0" then
    (from_v0_2_dev_0_update u.toml_config switch_d ask hash_d).map
      (fun d => Except.ok ⟨u.parsed_config, d⟩)
  else
    some (Except.error (UpdateError.IncorrectVersion "0.2-dev.0" (config_version u)))

/-- `update_from_v0_2_dev_1` of `updater.rs:141-165`. -/
def update_from_v0_2_dev_1 (u : ConfigUpdaterInit) (switch_d hash_d : Bool) :
    Option (Except UpdateError ConfigUpdaterUpdated) :=
  if config_version u = "0.2-dev.1" then
    (from_v0_2_dev_1_update u.toml_config switch_d hash_d).map
      (fun d => Except.ok ⟨u.parsed_config, d⟩)
  else
    some (Except.error (UpdateError.IncorrectVersion "0.2-dev.1" (config_version u)))

/-- `update_from_v0_2_dev_2` of `updater.rs:119-138`. -/
def update_from_v0_2_dev_2 (u : ConfigUpdaterInit) (switch_d : Bool) :
    Option (Except UpdateError ConfigUpdaterUpdated) :=
  if config_version u = "0.2-dev.2" then
    (from_v0_2_dev_2_update u.toml_config switch_d).map
      (fun d => Except.ok ⟨u.parsed_config, d⟩)
  else
    some (Except.error (UpdateError.IncorrectVersion "0.2-dev.2" (config_version u)))

/-! ## Serialization of the document (the write path of `save`) -/

mutual

/-- Render a TOML value (string escaping is not load-bearing here). -/
def serializeVal : TVal → String
  | TVal.str s => "\"" ++ s ++ "\""
  | TVal.boolean b => if b then "true" else "false"
  | TVal.int n => toString n
  | TVal.arr xs => "[" ++ serializeValList xs ++ "]"

/-- Render the comma-separated elements of a TOML array. -/
def serializeValList : List TVal → String
  | [] => ""
  | [x] => serializeVal x
  | x :: y :: rest => serializeVal x ++ ", " ++ serializeValList (y :: rest)

end

/-- Render one key of a table, preceded by its decor. -/
def serializeKV (kv : KV) : String :=
  kv.decor ++ kv.key ++ " = " ++ serializeVal kv.val ++ "\n"

/-- Render one top-level entry, preceded by its decor. -/
def serializeEntry (e : Entry) : String :=
  match e.item with
  | TItem.value v => e.decor ++ e.key ++ " = " ++ serializeVal v ++ "\n"
  | TItem.table es =>
    e.decor ++ "[" ++ e.key ++ "]\n" ++ String.join (es.map serializeKV)

/-- `Document::to_string`: the serialized text of the document. -/
def serializeDoc (doc : Doc) : String :=
  String.join (doc.map serializeEntry)

/-- `ConfigUpdater::<Updated>::save`, `updater.rs:226-232`: the text
written to the configuration file.  Only the document is serialized; the
typed config held by the handle plays no part. -/
def updater_save (u : ConfigUpdaterUpdated) : String :=
  serializeDoc u.toml_config

/-! ## Concrete fixtures used by witnesses and counterexamples -/

/-- A small well-formed v0.1 document. -/
def docV01W : Doc :=
  [⟨"version", "", TItem.value (TVal.str "0.1")⟩,
   ⟨"types", "", TItem.value (TVal.arr [TVal.str "feat adds a feature", TVal.str "fix"])⟩,
   ⟨"scopes", "", TItem.value (TVal.arr [TVal.str "a", TVal.str "b"])⟩,
   ⟨"template", "", TItem.value (TVal.str "t")⟩,
   ⟨"ticket_prefixes", "", TItem.value (TVal.arr [TVal.str ""])⟩]

/-- A v0.1 document that additionally carries a stray ill-typed top-level
`ticket` entry; serde ignores unknown fields, so it still parses as the
v0.1 snapshot. -/
def docV01Stray : Doc :=
  docV01W ++ [⟨"ticket", "", TItem.value (TVal.int 5)⟩]

/-- A small well-formed current-version document. -/
def docV02W : Doc :=
  [⟨"version", "", TItem.value (TVal.str "0.2")⟩,
   ⟨"types", "", TItem.table [⟨"feat", "", TVal.str "adds a feature"⟩]⟩,
   ⟨"templates", "", TItem.table [⟨"commit", "", TVal.str "t"⟩]⟩]

/-- The typed config of `docV02W`. -/
def configV02W : Config :=
  ⟨"0.2", [("feat", "adds a feature")], none, none, ⟨"t"⟩⟩

/-- An `Init` handle on an already-migrated (current-version) document. -/
def updaterCurrentW : ConfigUpdaterInit :=
  ⟨configV02W, docV02W⟩

/-- A minimal v0.1 `Init` handle used to exercise a successful migration:
all decors empty, empty lists. -/
def updaterV01W : ConfigUpdaterInit :=
  ⟨⟨"0.1", [], none, none, ⟨"t"⟩⟩,
   [⟨"version", "", TItem.value (TVal.str "0.1")⟩,
    ⟨"types", "", TItem.value (TVal.arr [])⟩,
    ⟨"scopes", "", TItem.value (TVal.arr [])⟩,
    ⟨"template", "", TItem.value (TVal.str "t")⟩,
    ⟨"ticket_prefixes", "", TItem.value (TVal.arr [])⟩]⟩

/-- The `Updated` handle produced by `update_from_v0_1` on `updaterV01W`
with decisions `(false, DontAsk, false)`. -/
def updaterV01WUpdated : ConfigUpdaterUpdated :=
  ⟨⟨"0.1", [], none, none, ⟨"t"⟩⟩,
   [⟨"version", "", TItem.value (TVal.str "0.2")⟩,
    ⟨"types", "", TItem.table []⟩,
    ⟨"scopes", "", TItem.table
      [⟨"accept", SCOPES_ACCEPT_DOC, TVal.str "list"⟩,
       ⟨"list", "", TVal.arr []⟩]⟩,
    ⟨"templates", TEMPLATES_DOC, TItem.table
      [⟨"commit", "", TVal.str "t"⟩]⟩]⟩

/-- A document whose version field is a development version. -/
def docDevW : Doc :=
  [⟨"version", "", TItem.value (TVal.str "0.2-dev.1")⟩,
   ⟨"anything", "", TItem.value (TVal.int 1)⟩]

/-- A document with an unrecognized version. -/
def docUnknownW : Doc :=
  [⟨"version", "", TItem.value (TVal.str "9.9")⟩,
   ⟨"types", "", TItem.value (TVal.arr [TVal.str "feat"])⟩]

/-- A commit template with two lines containing the ticket placeholder. -/
def twoTicketLinesW : String :=
  "Refs: \x7b\x7b ticket \x7d\x7d\nAlso: \x7b\x7b ticket \x7d\x7d"

/-! ## Document lookup lemmas -/

theorem lookupEntry_key {doc : Doc} {k : String} {e : Entry}
    (h : lookupEntry doc k = some e) : e.key = k := by
  induction doc with
  | nil => simp [lookupEntry] at h
  | cons x rest ih =>
    by_cases hx : x.key = k
    · simp [lookupEntry, hx] at h
      subst h
      exact hx
    · simp [lookupEntry, hx] at h
      exact ih h

theorem lookupEntry_setEntry_self {doc : Doc} {k : String} {e : Entry}
    (he : e.key = k) : lookupEntry (setEntry doc k e) k = some e := by
  induction doc with
  | nil => simp [setEntry, lookupEntry, he]
  | cons x rest ih =>
    by_cases hx : x.key = k
    · simp [setEntry, hx, lookupEntry, he]
    · simp [setEntry, hx, lookupEntry, ih]

theorem lookupEntry_setEntry_ne {doc : Doc} {k k2 : String} {e : Entry}
    (he : e.key = k) (hk : k2 ≠ k) :
    lookupEntry (setEntry doc k e) k2 = lookupEntry doc k2 := by
  have hek2 : ¬ (e.key = k2) := by rw [he]; exact fun h => hk h.symm
  have hk' : ¬ (k = k2) := fun h => hk h.symm
  induction doc with
  | nil => simp [setEntry, lookupEntry, hek2]
  | cons x rest ih =>
    by_cases hx : x.key = k
    · have hxk2 : ¬ (x.key = k2) := by rw [hx]; exact fun h => hk h.symm
      simp [setEntry, hx, lookupEntry, hxk2, hek2, hk']
    · by_cases hx2 : x.key = k2
      · simp [setEntry, hx, lookupEntry, hx2, hk]
      · simp [setEntry, hx, lookupEntry, hx2, ih]

theorem lookupEntry_removeKey_ne {doc : Doc} {k k2 : String}
    (hk : k2 ≠ k) : lookupEntry (removeKey doc k) k2 = lookupEntry doc k2 := by
  induction doc with
  | nil => simp [removeKey]
  | cons x rest ih =>
    by_cases hx : x.key = k
    · have hxk2 : ¬ (x.key = k2) := by rw [hx]; exact fun h => hk h.symm
      have hk' : ¬ (k = k2) := fun h => hk h.symm
      simp [removeKey, hx, lookupEntry, hxk2, hk']
    · by_cases hx2 : x.key = k2
      · simp [removeKey, hx, lookupEntry, hx2, hk]
      · simp [removeKey, hx, lookupEntry, hx2, ih]

theorem setEntry_lookup_self {doc : Doc} {k : String} {e : Entry}
    (h : lookupEntry doc k = some e) : setEntry doc k e = doc := by
  induction doc with
  | nil => simp [lookupEntry] at h
  | cons x rest ih =>
    by_cases hx : x.key = k
    · simp [lookupEntry, hx] at h
      subst h
      simp [setEntry, hx]
    · simp [lookupEntry, hx] at h
      simp [setEntry, hx, ih h]

theorem getStr_eq_some {doc : Doc} {k s : String}
    (h : getStr doc k = some s) :
    ∃ d, lookupEntry doc k = some ⟨k, d, TItem.value (TVal.str s)⟩ := by
  unfold getStr at h
  cases hl : lookupEntry doc k with
  | none => rw [hl] at h; exact absurd h (by simp)
  | some e =>
    rw [hl] at h
    have hk : e.key = k := lookupEntry_key hl
    obtain ⟨ek, ed, ei⟩ := e
    have hk2 : ek = k := hk
    cases ei with
    | value v =>
      cases v with
      | str s2 =>
        have hs : s2 = s := by simpa using h
        exact ⟨ed, by rw [hk2, hs]⟩
      | boolean b => exact absurd h (by simp)
      | int n => exact absurd h (by simp)
      | arr xs => exact absurd h (by simp)
    | table es => exact absurd h (by simp)

theorem getStrArr_eq_some {doc : Doc} {k : String} {l : List String}
    (h : getStrArr doc k = some l) :
    ∃ d xs, lookupEntry doc k = some ⟨k, d, TItem.value (TVal.arr xs)⟩ ∧
      allStrings xs = some l := by
  unfold getStrArr at h
  cases hl : lookupEntry doc k with
  | none => rw [hl] at h; exact absurd h (by simp)
  | some e =>
    rw [hl] at h
    have hk : e.key = k := lookupEntry_key hl
    obtain ⟨ek, ed, ei⟩ := e
    have hk2 : ek = k := hk
    cases ei with
    | value v =>
      cases v with
      | str s2 => exact absurd h (by simp)
      | boolean b => exact absurd h (by simp)
      | int n => exact absurd h (by simp)
      | arr xs =>
        exact ⟨ed, xs, by rw [hk2], h⟩
    | table es => exact absurd h (by simp)

/-! ## Text lemmas -/

theorem replaceAllGo_not_contains {pat rep : List Char} :
    ∀ (fuel : Nat) (s : List Char), containsSub pat s = false →
      replaceAllGo pat rep fuel s = s := by
  intro fuel
  induction fuel with
  | zero =>
    intro s _
    cases s <;> simp [replaceAllGo]
  | succ f ih =>
    intro s hs
    cases s with
    | nil => simp [replaceAllGo]
    | cons c rest =>
      simp only [containsSub, Bool.or_eq_false_iff] at hs
      simp [replaceAllGo, hs.1, ih rest hs.2]

theorem replaceAll_not_contains {pat rep s : List Char}
    (h : containsSub pat s = false) : replaceAll pat rep s = s :=
  replaceAllGo_not_contains s.length s h

theorem replaceStr_not_contains {s pat rep : String}
    (h : containsSub pat.data s.data = false) : replaceStr s pat rep = s := by
  unfold replaceStr
  rw [replaceAll_not_contains h]

theorem replaceAllGo_first_occ {pat rep : List Char} (hp : pat ≠ []) :
    ∀ (u : List Char) (fuel : Nat) (v : List Char),
      (u ++ pat ++ v).length ≤ fuel →
      (∀ j, j < u.length → pat.isPrefixOf ((u ++ pat ++ v).drop j) = false) →
      containsSub pat v = false →
      replaceAllGo pat rep fuel (u ++ pat ++ v) = u ++ rep ++ v := by
  intro u
  induction u with
  | nil =>
    intro fuel v hfuel _ hv
    cases fuel with
    | zero =>
      exfalso
      cases pat with
      | nil => exact hp rfl
      | cons p pt => simp at hfuel
    | succ f =>
      have hne : (pat ++ v : List Char) ≠ [] := by
        cases pat with
        | nil => exact absurd rfl hp
        | cons p pt => simp
      cases hpv : pat ++ v with
      | nil => exact absurd hpv hne
      | cons c rest =>
        rw [List.nil_append, hpv]
        have hpre : pat.isPrefixOf (c :: rest) = true := by
          rw [← hpv]
          exact List.isPrefixOf_iff_prefix.mpr (List.prefix_append pat v)
        rw [replaceAllGo]
        rw [if_pos ⟨hp, hpre⟩]
        have hdrop : (c :: rest).drop pat.length = v := by
          rw [← hpv]
          exact List.drop_left pat v
        rw [hdrop, replaceAllGo_not_contains f v hv]
        simp
  | cons c u' ih =>
    intro fuel v hfuel hocc hv
    cases fuel with
    | zero => simp at hfuel
    | succ f =>
      have h0 : pat.isPrefixOf ((c :: u') ++ pat ++ v) = false := by
        have := hocc 0 (by simp)
        simpa using this
      rw [List.cons_append, List.cons_append]
      rw [List.cons_append, List.cons_append] at h0
      rw [replaceAllGo]
      rw [if_neg (fun hcond => by rw [h0] at hcond; exact Bool.noConfusion hcond.2)]
      have hrec := ih f v
        (by simpa using Nat.le_of_succ_le_succ (by simpa using hfuel))
        (fun j hj => by
          have := hocc (j + 1) (by simpa using Nat.succ_lt_succ hj)
          simpa using this)
        hv
      rw [hrec]
      simp

theorem replaceAll_first_occ {pat rep : List Char} (hp : pat ≠ [])
    {u v : List Char}
    (hocc : ∀ j, j < u.length → pat.isPrefixOf ((u ++ pat ++ v).drop j) = false)
    (hv : containsSub pat v = false) :
    replaceAll pat rep (u ++ pat ++ v) = u ++ rep ++ v :=
  replaceAllGo_first_occ hp u (u ++ pat ++ v).length v le_rfl hocc hv

theorem wrapFirstTicketLine_length :
    ∀ ls : List (List Char), (wrapFirstTicketLine ls).length = ls.length := by
  intro ls
  induction ls with
  | nil => simp [wrapFirstTicketLine]
  | cons l rest ih =>
    by_cases hl : containsSub PLACEHOLDER l = true
    · simp [wrapFirstTicketLine, hl]
    · simp [wrapFirstTicketLine, hl, ih]

theorem wrapFirstTicketLine_no_placeholder :
    ∀ (ls : List (List Char)) (i : Nat),
      containsSub PLACEHOLDER (ls.getD i []) = false →
      (wrapFirstTicketLine ls).getD i [] = ls.getD i [] := by
  intro ls
  induction ls with
  | nil => intro i _; simp [wrapFirstTicketLine]
  | cons l rest ih =>
    intro i hi
    by_cases hl : containsSub PLACEHOLDER l = true
    · cases i with
      | zero => simp at hi; rw [hl] at hi; exact Bool.noConfusion hi
      | succ j =>
        simp [wrapFirstTicketLine, hl]
    · cases i with
      | zero => simp [wrapFirstTicketLine, hl]
      | succ j =>
        simp only [List.getD_cons_succ] at hi
        simp only [wrapFirstTicketLine]
        rw [if_neg hl]
        rw [List.getD_cons_succ, List.getD_cons_succ]
        exact ih j hi

theorem wrapFirstTicketLine_first_placeholder :
    ∀ (ls : List (List Char)) (i : Nat),
      (∀ j, j < i → containsSub PLACEHOLDER (ls.getD j []) = false) →
      containsSub PLACEHOLDER (ls.getD i []) = true →
      (wrapFirstTicketLine ls).getD i [] = wrapLine (ls.getD i []) := by
  intro ls
  induction ls with
  | nil =>
    intro i _ hi
    simp only [List.getD] at hi
    simp [containsSub, PLACEHOLDER] at hi
  | cons l rest ih =>
    intro i hprev hi
    cases i with
    | zero =>
      simp only [List.getD_cons_zero] at hi
      simp [wrapFirstTicketLine, hi]
    | succ j =>
      have h0 : containsSub PLACEHOLDER l = false := by
        have := hprev 0 (Nat.succ_pos j)
        simpa using this
      simp only [List.getD_cons_succ] at hi
      have hrec := ih j
        (fun j2 hj2 => by
          have := hprev (j2 + 1) (Nat.succ_lt_succ hj2)
          simpa using this)
        hi
      simp only [wrapFirstTicketLine]
      rw [if_neg (by rw [h0]; exact Bool.false_ne_true)]
      rw [List.getD_cons_succ, List.getD_cons_succ]
      exact hrec

theorem wrapFirstTicketLine_after_first :
    ∀ (ls : List (List Char)) (i j : Nat), j < i →
      containsSub PLACEHOLDER (ls.getD j []) = true →
      (wrapFirstTicketLine ls).getD i [] = ls.getD i [] := by
  intro ls
  induction ls with
  | nil =>
    intro i j _ hj
    simp only [List.getD] at hj
    simp [containsSub, PLACEHOLDER] at hj
  | cons l rest ih =>
    intro i j hji hj
    by_cases hl : containsSub PLACEHOLDER l = true
    · cases i with
      | zero => exact absurd hji (Nat.not_lt_zero j)
      | succ i2 =>
        simp only [wrapFirstTicketLine]
        rw [if_pos hl]
        rw [List.getD_cons_succ, List.getD_cons_succ]
    · cases j with
      | zero =>
        simp only [List.getD_cons_zero] at hj
        exact absurd hj hl
      | succ j2 =>
        cases i with
        | zero => exact absurd hji (by simp)
        | succ i2 =>
          simp only [List.getD_cons_succ] at hj
          simp only [wrapFirstTicketLine]
          rw [if_neg hl]
          rw [List.getD_cons_succ, List.getD_cons_succ]
          exact ih i2 j2 (Nat.lt_of_succ_lt_succ hji) hj

/-! ## `splitn` and prefix-list lemmas -/

theorem splitn2Space_no_space :
    ∀ s : List Char, ' ' ∉ s → splitn2Space s = (s, none) := by
  intro s
  induction s with
  | nil => intro _; simp [splitn2Space]
  | cons c rest ih =>
    intro h
    have hc : ¬ (c = ' ') := fun hc => h (hc ▸ List.mem_cons_self c rest)
    have hrest : ' ' ∉ rest := fun hm => h (List.mem_cons_of_mem c hm)
    simp [splitn2Space, hc, ih hrest]

theorem splitn2Space_first_space :
    ∀ pre : List Char, ' ' ∉ pre → ∀ post : List Char,
      splitn2Space (pre ++ ' ' :: post) = (pre, some post) := by
  intro pre
  induction pre with
  | nil => intro _ post; simp [splitn2Space]
  | cons c rest ih =>
    intro h post
    have hc : ¬ (c = ' ') := fun hc => h (hc ▸ List.mem_cons_self c rest)
    have hrest : ' ' ∉ rest := fun hm => h (List.mem_cons_of_mem c hm)
    simp [splitn2Space, hc, ih hrest post]

theorem replaceFirstEmpty_all_strings :
    ∀ (xs : List TVal) (l : List String), allStrings xs = some l →
      ∃ xs2 l2, replaceFirstEmpty xs = some xs2 ∧ allStrings xs2 = some l2 := by
  intro xs
  induction xs with
  | nil => intro l _; exact ⟨[], [], rfl, rfl⟩
  | cons x rest ih =>
    intro l h
    cases x with
    | str s =>
      simp only [allStrings] at h
      cases hrest : allStrings rest with
      | none => rw [hrest] at h; exact absurd h (by simp)
      | some lrest =>
        by_cases hs : s = ""
        · exact ⟨TVal.str "#" :: rest, "#" :: lrest,
            by simp [replaceFirstEmpty, hs],
            by simp [allStrings, hrest]⟩
        · obtain ⟨xs2, l2, h1, h2⟩ := ih lrest hrest
          exact ⟨TVal.str s :: xs2, s :: l2,
            by simp [replaceFirstEmpty, hs, h1],
            by simp [allStrings, h2]⟩
    | boolean b => exact absurd h (by simp [allStrings])
    | int n => exact absurd h (by simp [allStrings])
    | arr ys => exact absurd h (by simp [allStrings])

theorem replaceFirstEmpty_no_empty :
    ∀ (xs : List TVal) (l : List String), allStrings xs = some l → "" ∉ l →
      replaceFirstEmpty xs = some xs := by
  intro xs
  induction xs with
  | nil => intro l _ _; rfl
  | cons x rest ih =>
    intro l h hne
    cases x with
    | str s =>
      simp only [allStrings] at h
      cases hrest : allStrings rest with
      | none => rw [hrest] at h; exact absurd h (by simp)
      | some lrest =>
        rw [hrest] at h
        simp at h
        have hs : ¬ (s = "") := by
          intro hs
          apply hne
          rw [← h]
          exact hs ▸ List.mem_cons_self s lrest
        have hlr : "" ∉ lrest := by
          intro hm
          apply hne
          rw [← h]
          exact List.mem_cons_of_mem s hm
        simp [replaceFirstEmpty, hs, ih lrest hrest hlr]
    | boolean b => exact absurd h (by simp [allStrings])
    | int n => exact absurd h (by simp [allStrings])
    | arr ys => exact absurd h (by simp [allStrings])

theorem replaceFirstEmpty_first :
    ∀ (xs1 : List TVal) (l1 : List String), allStrings xs1 = some l1 → "" ∉ l1 →
      ∀ xs2 : List TVal,
        replaceFirstEmpty (xs1 ++ TVal.str "" :: xs2) =
          some (xs1 ++ TVal.str "#" :: xs2) := by
  intro xs1
  induction xs1 with
  | nil => intro l1 _ _ xs2; simp [replaceFirstEmpty]
  | cons x rest ih =>
    intro l1 h hne xs2
    cases x with
    | str s =>
      simp only [allStrings] at h
      cases hrest : allStrings rest with
      | none => rw [hrest] at h; exact absurd h (by simp)
      | some lrest =>
        rw [hrest] at h
        simp at h
        have hs : ¬ (s = "") := by
          intro hs
          apply hne
          rw [← h]
          exact hs ▸ List.mem_cons_self s lrest
        have hlr : "" ∉ lrest := by
          intro hm
          apply hne
          rw [← h]
          exact List.mem_cons_of_mem s hm
        simp [replaceFirstEmpty, hs, ih lrest hrest hlr xs2]
    | boolean b => exact absurd h (by simp [allStrings])
    | int n => exact absurd h (by simp [allStrings])
    | arr ys => exact absurd h (by simp [allStrings])

theorem typePairs_of_map (f g : String → String) :
    ∀ strs : List String,
      typePairs (strs.map fun s => ⟨f s, "", TVal.str (g s)⟩) =
        some (strs.map fun s => (f s, g s)) := by
  intro strs
  induction strs with
  | nil => rfl
  | cons s rest ih => simp [typePairs, ih]

/-! ## Claim theorems -/

/-- C7: for every document whose `version` field is one of the recognized
development versions, `Config::from_toml` fails with
`UnsupportedDevelopmentVersion` carrying that exact version string and the
bridging release `0.2.0`; the document is otherwise arbitrary, so no
full-schema parse or migration is ever attempted. -/
theorem c7_dev_version_rejected (doc : Doc) (v : String)
    (hv : getStr doc "version" = some v) (hdev : v ∈ DEV_VERSIONS) :
    from_toml doc =
      Except.error (FromTomlError.UnsupportedDevelopmentVersion v "0.2.0") := by
  simp only [DEV_VERSIONS, List.mem_cons, List.not_mem_nil, or_false] at hdev
  rcases hdev with h | h | h | h <;> subst h <;>
    simp [from_toml, hv, VERSION, DEV_VERSIONS]

/-- C7 witness: `docDevW` has version `0.2-dev.1` and is rejected with the
bridging release named. -/
theorem c7_dev_version_rejected_witness :
    from_toml docDevW =
      Except.error (FromTomlError.UnsupportedDevelopmentVersion "0.2-dev.1" "0.2.0") :=
  c7_dev_version_rejected docDevW "0.2-dev.1" (by rfl) (by decide)

/-- C8: for every document that parses minimally (a string `version`
field) whose version is neither the current one, nor `0.1`, nor one of the
four development versions, `Config::from_toml` fails with
`UnsupportedVersion` carrying that exact version string, regardless of the
rest of the document (no schema parse is attempted). -/
theorem c8_unknown_version_rejected (doc : Doc) (v : String)
    (hv : getStr doc "version" = some v) (h1 : v ≠ VERSION) (h2 : v ≠ "0.1")
    (h3 : v ∉ DEV_VERSIONS) :
    from_toml doc = Except.error (FromTomlError.UnsupportedVersion v) := by
  simp [from_toml, hv, h1, h2, h3]

/-- C8 witness: version `9.9` is rejected as `UnsupportedVersion`. -/
theorem c8_unknown_version_rejected_witness :
    from_toml docUnknownW = Except.error (FromTomlError.UnsupportedVersion "9.9") :=
  c8_unknown_version_rejected docUnknownW "9.9" (by rfl) (by decide) (by decide)
    (by decide)

/-- C6: `split_type_and_doc` splits on the first space: for a string with
a space, the key is the text before the first space and the description
the remaining text with surrounding whitespace trimmed; a string without
a space becomes the key with an empty description; and the v0.1 list
`["feat adds feature", "fix patches bug"]` becomes the ordered mapping
`feat -> "adds feature", fix -> "patches bug"`. -/
theorem c6_split_type_and_doc :
    (∀ pre post : List Char, ' ' ∉ pre →
      split_type_and_doc ⟨pre ++ ' ' :: post⟩ = (⟨pre⟩, ⟨trimChars post⟩)) ∧
    (∀ s : String, ' ' ∉ s.data → split_type_and_doc s = (s, "")) ∧
    split_types_and_docs ["feat adds feature", "fix patches bug"] =
      [("feat", "adds feature"), ("fix", "patches bug")] := by
  refine ⟨?_, ?_, by decide⟩
  · intro pre post h
    simp [split_type_and_doc, splitn2Space_first_space pre h post]
  · intro s h
    simp [split_type_and_doc, splitn2Space_no_space s.data h]
    rfl

/-- C6 witness: the two split behaviors at concrete inputs. -/
theorem c6_split_type_and_doc_witness :
    split_type_and_doc ⟨"feat".data ++ ' ' :: " adds a feature ".data⟩ =
      (⟨"feat".data⟩, ⟨trimChars " adds a feature ".data⟩) ∧
    split_type_and_doc "wip" = ("wip", "") :=
  ⟨c6_split_type_and_doc.1 "feat".data " adds a feature ".data (by decide),
   c6_split_type_and_doc.2.1 "wip" (by decide)⟩

/-- C4: the empty ticket prefix becomes `#` only when the
`empty_prefix_to_hash` decision is true; when the decision is false the
prefix list is passed through unchanged; when the decision is true a list
with no empty prefix is also unchanged, and in a list whose first empty
prefix exists, exactly that element becomes `#` and every other element
is untouched. -/
theorem c4_empty_prefix_to_hash :
    (∀ v : TVal, prefixes_after_decision false v = some v) ∧
    (∀ (xs : List TVal) (l : List String), allStrings xs = some l → "" ∉ l →
      prefixes_after_decision true (TVal.arr xs) = some (TVal.arr xs)) ∧
    (∀ (xs1 : List TVal) (l1 : List String) (xs2 : List TVal),
      allStrings xs1 = some l1 → "" ∉ l1 →
      prefixes_after_decision true (TVal.arr (xs1 ++ TVal.str "" :: xs2)) =
        some (TVal.arr (xs1 ++ TVal.str "#" :: xs2))) := by
  refine ⟨fun v => rfl, ?_, ?_⟩
  · intro xs l h hne
    simp [prefixes_after_decision, replace_empty_prefix_with_hash,
      empty_prefix_to_hash, replaceFirstEmpty_no_empty xs l h hne]
  · intro xs1 l1 xs2 h hne
    simp [prefixes_after_decision, replace_empty_prefix_with_hash,
      empty_prefix_to_hash, replaceFirstEmpty_first xs1 l1 h hne xs2]

/-- C4 witness: concrete prefix lists under both decision values. -/
theorem c4_empty_prefix_to_hash_witness :
    prefixes_after_decision false (TVal.arr [TVal.str ""]) =
      some (TVal.arr [TVal.str ""]) ∧
    prefixes_after_decision true (TVal.arr [TVal.str "GH-"]) =
      some (TVal.arr [TVal.str "GH-"]) ∧
    prefixes_after_decision true (TVal.arr [TVal.str "GH-", TVal.str "", TVal.str "x"]) =
      some (TVal.arr [TVal.str "GH-", TVal.str "#", TVal.str "x"]) :=
  ⟨c4_empty_prefix_to_hash.1 (TVal.arr [TVal.str ""]),
   c4_empty_prefix_to_hash.2.1 [TVal.str "GH-"] ["GH-"] (by rfl) (by decide),
   c4_empty_prefix_to_hash.2.2 [TVal.str "GH-"] ["GH-"] [TVal.str "x"] (by rfl)
     (by decide)⟩

theorem update_from_v0_1_guard {u : ConfigUpdaterInit} (switch_d : Bool)
    (ask : AskForTicket) (hash_d : Bool) (h : config_version u ≠ "0.1") :
    update_from_v0_1 u switch_d ask hash_d =
      some (Except.error (UpdateError.IncorrectVersion "0.1" (config_version u))) := by
  simp [update_from_v0_1, h]

theorem update_from_v0_2_dev_0_guard {u : ConfigUpdaterInit} (switch_d : Bool)
    (ask : AskForTicket) (hash_d : Bool) (h : config_version u ≠ "0.2-dev.0") :
    update_from_v0_2_dev_0 u switch_d ask hash_d =
      some (Except.error (UpdateError.IncorrectVersion "0.2-dev.0" (config_version u))) := by
  simp [update_from_v0_2_dev_0, h]

theorem update_from_v0_2_dev_1_guard {u : ConfigUpdaterInit} (switch_d hash_d : Bool)
    (h : config_version u ≠ "0.2-dev.1") :
    update_from_v0_2_dev_1 u switch_d hash_d =
      some (Except.error (UpdateError.IncorrectVersion "0.2-dev.1" (config_version u))) := by
  simp [update_from_v0_2_dev_1, h]

theorem update_from_v0_2_dev_2_guard {u : ConfigUpdaterInit} (switch_d : Bool)
    (h : config_version u ≠ "0.2-dev.2") :
    update_from_v0_2_dev_2 u switch_d =
      some (Except.error (UpdateError.IncorrectVersion "0.2-dev.2" (config_version u))) := by
  simp [update_from_v0_2_dev_2, h]

/-- C2: each `update_from_V` method first checks the detected version: on
any handle whose detected version differs from `V` it returns
`IncorrectVersion` with `tried_from` the advertised version `V` and
`actual` the detected one, consuming the handle without producing an
`Updated` one, so nothing can be saved and the document is untouched; in
particular on a handle whose detected version is already the current one,
every `update_from_V` fails that way. -/
theorem c2_incorrect_version_guard (u : ConfigUpdaterInit) (switch_d : Bool)
    (ask : AskForTicket) (hash_d : Bool) :
    (config_version u ≠ "0.1" →
      update_from_v0_1 u switch_d ask hash_d =
        some (Except.error (UpdateError.IncorrectVersion "0.1" (config_version u)))) ∧
    (config_version u ≠ "0.2-dev.0" →
      update_from_v0_2_dev_0 u switch_d ask hash_d =
        some (Except.error (UpdateError.IncorrectVersion "0.2-dev.0" (config_version u)))) ∧
    (config_version u ≠ "0.2-dev.1" →
      update_from_v0_2_dev_1 u switch_d hash_d =
        some (Except.error (UpdateError.IncorrectVersion "0.2-dev.1" (config_version u)))) ∧
    (config_version u ≠ "0.2-dev.2" →
      update_from_v0_2_dev_2 u switch_d =
        some (Except.error (UpdateError.IncorrectVersion "0.2-dev.2" (config_version u)))) ∧
    (config_version u = VERSION →
      update_from_v0_1 u switch_d ask hash_d =
        some (Except.error (UpdateError.IncorrectVersion "0.1" VERSION)) ∧
      update_from_v0_2_dev_0 u switch_d ask hash_d =
        some (Except.error (UpdateError.IncorrectVersion "0.2-dev.0" VERSION)) ∧
      update_from_v0_2_dev_1 u switch_d hash_d =
        some (Except.error (UpdateError.IncorrectVersion "0.2-dev.1" VERSION)) ∧
      update_from_v0_2_dev_2 u switch_d =
        some (Except.error (UpdateError.IncorrectVersion "0.2-dev.2" VERSION))) := by
  refine ⟨update_from_v0_1_guard switch_d ask hash_d,
    update_from_v0_2_dev_0_guard switch_d ask hash_d,
    update_from_v0_2_dev_1_guard switch_d hash_d,
    update_from_v0_2_dev_2_guard switch_d, ?_⟩
  intro h
  refine ⟨?_, ?_, ?_, ?_⟩
  · rw [update_from_v0_1_guard switch_d ask hash_d (by rw [h]; decide), h]
  · rw [update_from_v0_2_dev_0_guard switch_d ask hash_d (by rw [h]; decide), h]
  · rw [update_from_v0_2_dev_1_guard switch_d hash_d (by rw [h]; decide), h]
  · rw [update_from_v0_2_dev_2_guard switch_d (by rw [h]; decide), h]

/-- C2 witness: on an already-migrated (current-version) handle, all four
migrations fail with `IncorrectVersion` reporting the current version. -/
theorem c2_incorrect_version_guard_witness :
    update_from_v0_1 updaterCurrentW false AskForTicket.dontAsk false =
      some (Except.error (UpdateError.IncorrectVersion "0.1" VERSION)) ∧
    update_from_v0_2_dev_2 updaterCurrentW false =
      some (Except.error (UpdateError.IncorrectVersion "0.2-dev.2" VERSION)) :=
  ⟨((c2_incorrect_version_guard updaterCurrentW false AskForTicket.dontAsk
      false).2.2.2.2 (by rfl)).1,
   ((c2_incorrect_version_guard updaterCurrentW false AskForTicket.dontAsk
      false).2.2.2.2 (by rfl)).2.2.2⟩

/-- C9: every successful `update_from_*` transition carries the typed
parsed config over to the `Updated` handle unchanged (only the document is
rewritten), and `save` serializes only the document — two handles holding
the same document produce the same written text whatever their typed
configs are, so the typed config is never re-derived from the migrated
document. -/
theorem c9_config_carried_over :
    (∀ (u : ConfigUpdaterInit) (switch_d : Bool) (ask : AskForTicket)
       (hash_d : Bool) (u2 : ConfigUpdaterUpdated),
      update_from_v0_1 u switch_d ask hash_d = some (Except.ok u2) →
      u2.parsed_config = u.parsed_config) ∧
    (∀ (u : ConfigUpdaterInit) (switch_d : Bool) (ask : AskForTicket)
       (hash_d : Bool) (u2 : ConfigUpdaterUpdated),
      update_from_v0_2_dev_0 u switch_d ask hash_d = some (Except.ok u2) →
      u2.parsed_config = u.parsed_config) ∧
    (∀ (u : ConfigUpdaterInit) (switch_d hash_d : Bool)
       (u2 : ConfigUpdaterUpdated),
      update_from_v0_2_dev_1 u switch_d hash_d = some (Except.ok u2) →
      u2.parsed_config = u.parsed_config) ∧
    (∀ (u : ConfigUpdaterInit) (switch_d : Bool) (u2 : ConfigUpdaterUpdated),
      update_from_v0_2_dev_2 u switch_d = some (Except.ok u2) →
      u2.parsed_config = u.parsed_config) ∧
    (∀ u : ConfigUpdaterUpdated, updater_save u = serializeDoc u.toml_config) ∧
    (∀ (c1 c2 : Config) (d : Doc),
      updater_save ⟨c1, d⟩ = updater_save ⟨c2, d⟩) := by
  refine ⟨?_, ?_, ?_, ?_, fun u => rfl, fun c1 c2 d => rfl⟩
  · intro u switch_d ask hash_d u2 h
    unfold update_from_v0_1 at h
    by_cases hv : config_version u = "0.1"
    · rw [if_pos hv] at h
      cases hup : from_v0_1_update u.toml_config switch_d ask hash_d with
      | none => rw [hup] at h; exact absurd h (by simp)
      | some d =>
        rw [hup] at h
        simp at h
        rw [← h]
    · rw [if_neg hv] at h
      simp at h
  · intro u switch_d ask hash_d u2 h
    unfold update_from_v0_2_dev_0 at h
    by_cases hv : config_version u = "0.2-dev.0"
    · rw [if_pos hv] at h
      cases hup : from_v0_2_dev_0_update u.toml_config switch_d ask hash_d with
      | none => rw [hup] at h; exact absurd h (by simp)
      | some d =>
        rw [hup] at h
        simp at h
        rw [← h]
    · rw [if_neg hv] at h
      simp at h
  · intro u switch_d hash_d u2 h
    unfold update_from_v0_2_dev_1 at h
    by_cases hv : config_version u = "0.2-dev.1"
    · rw [if_pos hv] at h
      cases hup : from_v0_2_dev_1_update u.toml_config switch_d hash_d with
      | none => rw [hup] at h; exact absurd h (by simp)
      | some d =>
        rw [hup] at h
        simp at h
        rw [← h]
    · rw [if_neg hv] at h
      simp at h
  · intro u switch_d u2 h
    unfold update_from_v0_2_dev_2 at h
    by_cases hv : config_version u = "0.2-dev.2"
    · rw [if_pos hv] at h
      cases hup : from_v0_2_dev_2_update u.toml_config switch_d with
      | none => rw [hup] at h; exact absurd h (by simp)
      | some d =>
        rw [hup] at h
        simp at h
        rw [← h]
    · rw [if_neg hv] at h
      simp at h

/-- C9 witness: a successful v0.1 migration of a minimal handle keeps the
typed config bit-for-bit. -/
theorem c9_config_carried_over_witness :
    updaterV01WUpdated.parsed_config = updaterV01W.parsed_config :=
  c9_config_carried_over.1 updaterV01W false AskForTicket.dontAsk false
    updaterV01WUpdated (by rfl)

theorem parse_v0_1_version {doc : Doc} {c : ConfigV01}
    (h : parse_v0_1 doc = some c) : getStr doc "version" = some c.version := by
  unfold parse_v0_1 at h
  split at h
  · next version types scopes template tps h1 h2 h3 h4 h5 =>
    cases h
    exact h1
  · exact absurd h (by simp)

theorem parse_v0_2_version {doc : Doc} {c : Config}
    (h : parse_v0_2 doc = some c) : getStr doc "version" = some c.version := by
  unfold parse_v0_2 at h
  split at h
  · next version types scopes ticket templates h1 h2 h3 h4 h5 =>
    cases h
    exact h1
  · exact absurd h (by simp)

theorem from_toml_ok_version {doc : Doc} {c : Config}
    (h : from_toml doc = Except.ok c) :
    c.version = "0.1" ∨ c.version = VERSION := by
  unfold from_toml at h
  split at h
  · exact absurd h (by simp)
  · next v hv =>
    split at h
    · next h1 =>
      split at h
      · next c2 hp =>
        simp only [Except.ok.injEq] at h
        subst h
        right
        have hvv := parse_v0_2_version hp
        rw [hv] at hvv
        simp only [Option.some.injEq] at hvv
        rw [← hvv]
        exact h1
      · exact absurd h (by simp)
    · next h1 =>
      split at h
      · next h2 =>
        split at h
        · next c0 hp =>
          simp only [Except.ok.injEq] at h
          subst h
          left
          have hvv := parse_v0_1_version hp
          rw [hv] at hvv
          simp only [Option.some.injEq] at hvv
          simp only [config_from_v0_1]
          rw [← hvv]
          exact h2
        · exact absurd h (by simp)
      · next h2 =>
        split at h
        · exact absurd h (by simp)
        · exact absurd h (by simp)

/-- C10: every handle successfully returned by `ConfigUpdater::load` has a
detected version equal to `0.1` or to the current version, because
`Config::from_toml` rejects every other version during load; hence on any
successfully loaded handle the three development-version migrations always
fail with `IncorrectVersion`. -/
theorem c10_load_version_invariant (doc : Doc) (u : ConfigUpdaterInit)
    (h : updater_load doc = Except.ok u) :
    (config_version u = "0.1" ∨ config_version u = VERSION) ∧
    (∀ (switch_d : Bool) (ask : AskForTicket) (hash_d : Bool),
      update_from_v0_2_dev_0 u switch_d ask hash_d =
        some (Except.error
          (UpdateError.IncorrectVersion "0.2-dev.0" (config_version u)))) ∧
    (∀ switch_d hash_d : Bool,
      update_from_v0_2_dev_1 u switch_d hash_d =
        some (Except.error
          (UpdateError.IncorrectVersion "0.2-dev.1" (config_version u)))) ∧
    (∀ switch_d : Bool,
      update_from_v0_2_dev_2 u switch_d =
        some (Except.error
          (UpdateError.IncorrectVersion "0.2-dev.2" (config_version u)))) := by
  have hver : config_version u = "0.1" ∨ config_version u = VERSION := by
    unfold updater_load at h
    cases hf : from_toml doc with
    | ok c =>
      rw [hf] at h
      simp at h
      have := from_toml_ok_version hf
      rw [← h]
      exact this
    | error e => rw [hf] at h; exact absurd h (by simp)
  have hne : ∀ w : String, w ≠ "0.1" → w ≠ VERSION → config_version u ≠ w := by
    intro w hw1 hw2 hc
    rcases hver with h1 | h1
    · exact hw1 (hc ▸ h1)
    · exact hw2 (hc ▸ h1)
  refine ⟨hver, ?_, ?_, ?_⟩
  · intro switch_d ask hash_d
    exact update_from_v0_2_dev_0_guard switch_d ask hash_d
      (hne "0.2-dev.0" (by decide) (by decide))
  · intro switch_d hash_d
    exact update_from_v0_2_dev_1_guard switch_d hash_d
      (hne "0.2-dev.1" (by decide) (by decide))
  · intro switch_d
    exact update_from_v0_2_dev_2_guard switch_d
      (hne "0.2-dev.2" (by decide) (by decide))

/-- C10 witness: a loaded current-version document yields a handle on
which the development migrations fail. -/
theorem c10_load_version_invariant_witness :
    (config_version ⟨configV02W, docV02W⟩ = "0.1" ∨
      config_version ⟨configV02W, docV02W⟩ = VERSION) ∧
    update_from_v0_2_dev_2 ⟨configV02W, docV02W⟩ false =
      some (Except.error (UpdateError.IncorrectVersion "0.2-dev.2"
        (config_version ⟨configV02W, docV02W⟩))) :=
  ⟨(c10_load_version_invariant docV02W ⟨configV02W, docV02W⟩ (by rfl)).1,
   (c10_load_version_invariant docV02W ⟨configV02W, docV02W⟩
     (by rfl)).2.2.2 false⟩

/-- C3: the boilerplate-comment replacement is by verbatim match.  For
`update_types_doc`: when the old boilerplate block does not occur verbatim
in the `types` decor, the document is returned byte-for-byte unchanged;
when it does occur (first occurrence after any user text `u`, with no
further occurrence in the user text `v` after it), exactly that block is
replaced by the canonical text and the surrounding user-written comment
text survives byte-for-byte.  For `update_scopes_accept_doc`: the
canonical doc is written only when the existing decor is empty
(whitespace-only); any other decor text is left untouched. -/
theorem c3_boilerplate_replacement :
    (∀ (doc : Doc) (e : Entry) (es : List KV),
      lookupEntry doc "types" = some e → e.item = TItem.table es →
      containsSub OLD_TYPES_DOC.data e.decor.data = false →
      update_types_doc doc = some doc) ∧
    (∀ (doc : Doc) (e : Entry) (es : List KV) (u v : List Char),
      lookupEntry doc "types" = some e → e.item = TItem.table es →
      e.decor.data = u ++ OLD_TYPES_DOC.data ++ v →
      (∀ j, j < u.length →
        OLD_TYPES_DOC.data.isPrefixOf
          ((u ++ OLD_TYPES_DOC.data ++ v).drop j) = false) →
      containsSub OLD_TYPES_DOC.data v = false →
      update_types_doc doc =
        some (setEntry doc "types"
          ⟨"types", ⟨u ++ NEW_TYPES_DOC.data ++ v⟩, TItem.table es⟩)) ∧
    (∀ (es : List KV) (kv : KV),
      lookupKV es "accept" = some kv →
      (trimChars kv.decor.data).isEmpty = false →
      update_scopes_accept_doc es = some es) ∧
    (∀ (es : List KV) (kv : KV),
      lookupKV es "accept" = some kv →
      (trimChars kv.decor.data).isEmpty = true →
      update_scopes_accept_doc es =
        some (setKVdecor es "accept" SCOPES_ACCEPT_DOC)) := by
  refine ⟨?_, ?_, ?_, ?_⟩
  · intro doc e es hl hi hc
    have hk : e.key = "types" := lookupEntry_key hl
    have hdec : replaceStr e.decor OLD_TYPES_DOC NEW_TYPES_DOC = e.decor :=
      replaceStr_not_contains hc
    have hent : (⟨e.key, replaceStr e.decor OLD_TYPES_DOC NEW_TYPES_DOC,
        TItem.table es⟩ : Entry) = e := by
      rw [hdec, ← hi]
    simp only [update_types_doc, hl, hi]
    rw [hent, setEntry_lookup_self hl]
  · intro doc e es u v hl hi hdata hocc hv
    have hk : e.key = "types" := lookupEntry_key hl
    have hdec : replaceStr e.decor OLD_TYPES_DOC NEW_TYPES_DOC =
        ⟨u ++ NEW_TYPES_DOC.data ++ v⟩ := by
      unfold replaceStr
      rw [hdata]
      rw [replaceAll_first_occ (by decide) hocc hv]
    simp only [update_types_doc, hl, hi]
    rw [hdec, hk]
  · intro es kv hl he
    simp only [update_scopes_accept_doc, hl]
    rw [if_neg (by rw [he]; exact Bool.false_ne_true)]
  · intro es kv hl he
    simp only [update_scopes_accept_doc, hl]
    rw [if_pos he]

/-- C3 witness: a purely user-written decor survives `update_types_doc`
byte-for-byte; a decor that is user text around the verbatim boilerplate
gets only the boilerplate replaced; a non-empty `scopes.accept` decor is
kept and an empty one gets the canonical doc. -/
theorem c3_boilerplate_replacement_witness :
    update_types_doc [⟨"types", "# my own notes\n", TItem.table []⟩] =
      some [⟨"types", "# my own notes\n", TItem.table []⟩] ∧
    update_types_doc
      [⟨"types", "# before\n" ++ OLD_TYPES_DOC ++ "# after\n", TItem.table []⟩] =
      some (setEntry [⟨"types", "# before\n" ++ OLD_TYPES_DOC ++ "# after\n",
        TItem.table []⟩] "types"
        ⟨"types", ⟨"# before\n".data ++ NEW_TYPES_DOC.data ++ "# after\n".data⟩,
         TItem.table []⟩) ∧
    update_scopes_accept_doc [⟨"accept", "# custom\n", TVal.str "any"⟩] =
      some [⟨"accept", "# custom\n", TVal.str "any"⟩] ∧
    update_scopes_accept_doc [⟨"accept", "", TVal.str "any"⟩] =
      some (setKVdecor [⟨"accept", "", TVal.str "any"⟩] "accept"
        SCOPES_ACCEPT_DOC) :=
  ⟨c3_boilerplate_replacement.1 _ _ [] (by rfl) (by rfl) (by decide),
   c3_boilerplate_replacement.2.1 _ _ [] "# before\n".data "# after\n".data
     (by rfl) (by rfl) (by decide) (by decide) (by decide),
   c3_boilerplate_replacement.2.2.1 _ _ (by rfl) (by decide),
   c3_boilerplate_replacement.2.2.2 _ _ (by rfl) (by decide)⟩

/-- C5 counterexample: on a template whose two lines both contain the
ticket placeholder, the rewrite wraps only the first one — the second
line contains the placeholder yet is returned unchanged, unwrapped.  This
refutes the claim that the rewrite wraps any (i.e. every) line containing
the placeholder: `Regex::replace` substitutes only the leftmost-first
match. -/
theorem c5_counterexample :
    add_ticket_condition_to_commit_template twoTicketLinesW =
      "\x7b% if ticket %\x7dRefs: \x7b\x7b ticket \x7d\x7d\x7b% endif %\x7d\nAlso: \x7b\x7b ticket \x7d\x7d" ∧
    containsSub PLACEHOLDER ((splitOnNl twoTicketLinesW.data).getD 1 []) = true ∧
    (splitOnNl (add_ticket_condition_to_commit_template twoTicketLinesW).data).getD 1 [] =
      (splitOnNl twoTicketLinesW.data).getD 1 [] :=
  ⟨rfl, by decide, by decide⟩

/-- C5 (amended): the conditional-wrap rewrite wraps the first line
containing the ticket placeholder in a conditional block and modifies only
that line: the line structure is preserved, every line not containing the
placeholder is returned byte-for-byte unchanged (in particular lines
adjacent to the wrapped line), the first placeholder-containing line is
exactly the original line wrapped in the conditional markers, and every
line strictly after a placeholder-containing line — in particular every
subsequent line that itself contains the placeholder — is returned
byte-for-byte unchanged. -/
theorem c5_first_ticket_line_wrapped :
    (∀ t : String, (add_ticket_condition_to_commit_template t).data =
      joinNl (wrapFirstTicketLine (splitOnNl t.data))) ∧
    (∀ ls : List (List Char), (wrapFirstTicketLine ls).length = ls.length) ∧
    (∀ (ls : List (List Char)) (i : Nat),
      containsSub PLACEHOLDER (ls.getD i []) = false →
      (wrapFirstTicketLine ls).getD i [] = ls.getD i []) ∧
    (∀ (ls : List (List Char)) (i : Nat),
      (∀ j, j < i → containsSub PLACEHOLDER (ls.getD j []) = false) →
      containsSub PLACEHOLDER (ls.getD i []) = true →
      (wrapFirstTicketLine ls).getD i [] = wrapLine (ls.getD i [])) ∧
    (∀ (ls : List (List Char)) (i j : Nat), j < i →
      containsSub PLACEHOLDER (ls.getD j []) = true →
      (wrapFirstTicketLine ls).getD i [] = ls.getD i []) :=
  ⟨fun _ => rfl, wrapFirstTicketLine_length, wrapFirstTicketLine_no_placeholder,
   wrapFirstTicketLine_first_placeholder, wrapFirstTicketLine_after_first⟩

/-- C5 witness: on the two-placeholder-line template, line 0 is wrapped
while line 1, which also contains the placeholder, comes strictly after a
placeholder line and is unchanged; on a template whose first line has no
placeholder, line 0 is unchanged. -/
theorem c5_first_ticket_line_wrapped_witness :
    (wrapFirstTicketLine (splitOnNl twoTicketLinesW.data)).getD 0 [] =
      wrapLine ((splitOnNl twoTicketLinesW.data).getD 0 []) ∧
    (wrapFirstTicketLine (splitOnNl twoTicketLinesW.data)).getD 1 [] =
      (splitOnNl twoTicketLinesW.data).getD 1 [] ∧
    (wrapFirstTicketLine (splitOnNl "subject line\nRefs: \x7b\x7b ticket \x7d\x7d".data)).getD 0 [] =
      (splitOnNl "subject line\nRefs: \x7b\x7b ticket \x7d\x7d".data).getD 0 [] :=
  ⟨c5_first_ticket_line_wrapped.2.2.2.1 _ 0
     (fun j hj => absurd hj (Nat.not_lt_zero j)) (by decide),
   c5_first_ticket_line_wrapped.2.2.2.2 _ 1 0 (Nat.zero_lt_one) (by decide),
   c5_first_ticket_line_wrapped.2.2.1 _ 0 (by decide)⟩

/-! ## Step lemmas for the v0.1 migration chain -/

theorem parse_v0_1_elim {doc : Doc} {c : ConfigV01}
    (h : parse_v0_1 doc = some c) :
    getStr doc "version" = some c.version ∧
    getStrArr doc "types" = some c.types ∧
    getStrArr doc "scopes" = some c.scopes ∧
    getStr doc "template" = some c.template ∧
    getStrArr doc "ticket_prefixes" = some c.ticket_prefixes := by
  unfold parse_v0_1 at h
  split at h
  · next version types scopes template tps h1 h2 h3 h4 h5 =>
    cases h
    exact ⟨h1, h2, h3, h4, h5⟩
  · exact absurd h (by simp)

theorem getStr_congr {d1 d2 : Doc} {k : String}
    (h : lookupEntry d1 k = lookupEntry d2 k) : getStr d1 k = getStr d2 k := by
  unfold getStr
  rw [h]

theorem parseTypesAt_congr {d1 d2 : Doc}
    (h : lookupEntry d1 "types" = lookupEntry d2 "types") :
    parseTypesAt d1 = parseTypesAt d2 := by
  unfold parseTypesAt
  rw [h]

theorem parseScopesAt_congr {d1 d2 : Doc}
    (h : lookupEntry d1 "scopes" = lookupEntry d2 "scopes") :
    parseScopesAt d1 = parseScopesAt d2 := by
  unfold parseScopesAt
  rw [h]

theorem parseTicketAt_congr {d1 d2 : Doc}
    (h : lookupEntry d1 "ticket" = lookupEntry d2 "ticket") :
    parseTicketAt d1 = parseTicketAt d2 := by
  unfold parseTicketAt
  rw [h]

theorem parseTemplatesAt_congr {d1 d2 : Doc}
    (h : lookupEntry d1 "templates" = lookupEntry d2 "templates") :
    parseTemplatesAt d1 = parseTemplatesAt d2 := by
  unfold parseTemplatesAt
  rw [h]

theorem parse_v0_2_intro {doc : Doc} {ver : String}
    {types : List (String × String)} {scopes : Option Scopes}
    {ticket : Option Ticket} {templates : Templates}
    (h1 : getStr doc "version" = some ver)
    (h2 : parseTypesAt doc = some types)
    (h3 : parseScopesAt doc = some scopes)
    (h4 : parseTicketAt doc = some ticket)
    (h5 : parseTemplatesAt doc = some templates) :
    parse_v0_2 doc = some ⟨ver, types, scopes, ticket, templates⟩ := by
  unfold parse_v0_2
  rw [h1, h2, h3, h4, h5]

theorem from_toml_current {doc : Doc} {c : Config}
    (h1 : getStr doc "version" = some VERSION)
    (h2 : parse_v0_2 doc = some c) : from_toml doc = Except.ok c := by
  unfold from_toml
  rw [h1]
  simp [h2]

theorem update_version_bundle {doc : Doc} {dv : String} {it : TItem}
    (h : lookupEntry doc "version" = some ⟨"version", dv, it⟩) :
    ∃ D, update_version doc = some D ∧
      getStr D "version" = some VERSION ∧
      ∀ k2, k2 ≠ "version" → lookupEntry D k2 = lookupEntry doc k2 := by
  refine ⟨setEntry doc "version" ⟨"version", dv, TItem.value (TVal.str VERSION)⟩,
    ?_, ?_, ?_⟩
  · simp [update_version, h]
  · simp [getStr, lookupEntry_setEntry_self]
  · intro k2 hk2
    exact lookupEntry_setEntry_ne rfl hk2

theorem v01_update_types_bundle {doc : Doc} {dt : String} {xt : List TVal}
    {tys : List String}
    (h : lookupEntry doc "types" = some ⟨"types", dt, TItem.value (TVal.arr xt)⟩)
    (hall : allStrings xt = some tys) :
    ∃ D, v01_update_types doc = some D ∧
      parseTypesAt D =
        some (tys.map fun s => ((split_type_and_doc s).1, (split_type_and_doc s).2)) ∧
      ∀ k2, k2 ≠ "types" → lookupEntry D k2 = lookupEntry doc k2 := by
  refine ⟨setEntry doc "types"
      ⟨"types", replaceStr dt V01_OLD_TYPES_DOC NEW_TYPES_DOC,
       TItem.table (tys.map fun s =>
         ⟨(split_type_and_doc s).1, "", TVal.str (split_type_and_doc s).2⟩)⟩,
    ?_, ?_, ?_⟩
  · simp [v01_update_types, h, hall]
  · simp [parseTypesAt, lookupEntry_setEntry_self, typePairs_of_map]
  · intro k2 hk2
    exact lookupEntry_setEntry_ne rfl hk2

theorem v01_update_scopes_bundle {doc : Doc} {ds : String} {xs0 : List TVal}
    {scps : List String} (switch_d : Bool)
    (h : lookupEntry doc "scopes" = some ⟨"scopes", ds, TItem.value (TVal.arr xs0)⟩)
    (hall : allStrings xs0 = some scps) :
    ∃ D, v01_update_scopes doc switch_d = some D ∧
      parseScopesAt D =
        some (some (if switch_d then Scopes.any else Scopes.list scps)) ∧
      ∀ k2, k2 ≠ "scopes" → lookupEntry D k2 = lookupEntry doc k2 := by
  refine ⟨setEntry doc "scopes"
      ⟨"scopes", replaceStr ds V01_OLD_SCOPES_DOC NEW_SCOPES_DOC,
       TItem.table
         (if switch_d then [⟨"accept", SCOPES_ACCEPT_DOC, TVal.str "any"⟩]
          else [⟨"accept", SCOPES_ACCEPT_DOC, TVal.str "list"⟩,
                ⟨"list", "", TVal.arr xs0⟩])⟩,
    ?_, ?_, ?_⟩
  · simp [v01_update_scopes, h]
  · cases switch_d with
    | false =>
      simp [parseScopesAt, lookupEntry_setEntry_self, parseScopesTable, kvStr,
        kvStrArr, lookupKV, hall]
    | true =>
      simp [parseScopesAt, lookupEntry_setEntry_self, parseScopesTable, kvStr,
        lookupKV]
  · intro k2 hk2
    exact lookupEntry_setEntry_ne rfl hk2

theorem v01_update_ticket_bundle {doc : Doc} {dp : String} {xp : List TVal}
    {tps : List String} (required hash_d : Bool)
    (h : lookupEntry doc "ticket_prefixes" =
      some ⟨"ticket_prefixes", dp, TItem.value (TVal.arr xp)⟩)
    (hall : allStrings xp = some tps) :
    ∃ D l2, v01_update_ticket doc required hash_d = some D ∧
      parseTicketAt D = some (some ⟨required, l2⟩) ∧
      ∀ k2, k2 ≠ "ticket" → k2 ≠ "ticket_prefixes" →
        lookupEntry D k2 = lookupEntry doc k2 := by
  have hex : ∃ xp2 l2, prefixes_after_decision hash_d (TVal.arr xp) =
      some (TVal.arr xp2) ∧ allStrings xp2 = some l2 := by
    cases hash_d with
    | false => exact ⟨xp, tps, rfl, hall⟩
    | true =>
      obtain ⟨xp2, l2, h1, h2⟩ := replaceFirstEmpty_all_strings xp tps hall
      exact ⟨xp2, l2, by simp [prefixes_after_decision,
        replace_empty_prefix_with_hash, empty_prefix_to_hash, h1], h2⟩
  obtain ⟨xp2, l2, hpv, hpall2⟩ := hex
  refine ⟨setEntry (removeKey doc "ticket_prefixes") "ticket"
      ⟨"ticket", TICKET_DOC,
       TItem.table
         [⟨"required", TICKET_REQUIRED_DOC, TVal.boolean required⟩,
          ⟨"prefixes",
           replaceStr (trimStartStr dp) V01_OLD_TICKET_PREFIXES_DOC
             NEW_TICKET_PREFIXES_DOC,
           TVal.arr xp2⟩]⟩, l2, ?_, ?_, ?_⟩
  · simp [v01_update_ticket, h, hpv]
  · simp [parseTicketAt, lookupEntry_setEntry_self, parseTicketTable, kvBool,
      kvStrArr, lookupKV, hpall2]
  · intro k2 hk2 hk2p
    refine (lookupEntry_setEntry_ne ?_ hk2).trans (lookupEntry_removeKey_ne hk2p)
    rfl

theorem v01_update_templates_bundle {doc : Doc} {dm t : String} (hash_d : Bool)
    (h : lookupEntry doc "template" =
      some ⟨"template", dm, TItem.value (TVal.str t)⟩) :
    ∃ D TT, v01_update_templates doc hash_d = some D ∧
      parseTemplatesAt D = some ⟨TT⟩ ∧
      ∀ k2, k2 ≠ "templates" → k2 ≠ "template" →
        lookupEntry D k2 = lookupEntry doc k2 := by
  refine ⟨setEntry (removeKey doc "template") "templates"
      ⟨"templates", TEMPLATES_DOC,
       TItem.table
         [⟨"commit",
           replaceStr (trimStartStr dm) V01_OLD_TEMPLATES_COMMIT_DOC
             NEW_TEMPLATES_COMMIT_DOC,
           TVal.str
             (if hash_d then
                remove_hash_ticket_prefix_from_commit_template
                  (add_ticket_condition_to_commit_template t)
              else
                add_ticket_condition_to_commit_template t)⟩]⟩,
    (if hash_d then
       remove_hash_ticket_prefix_from_commit_template
         (add_ticket_condition_to_commit_template t)
     else
       add_ticket_condition_to_commit_template t), ?_, ?_, ?_⟩
  · simp [v01_update_templates, h]
  · simp [parseTemplatesAt, lookupEntry_setEntry_self, parseTemplatesTable,
      kvStr, lookupKV]
  · intro k2 hk2 hk2p
    refine (lookupEntry_setEntry_ne ?_ hk2).trans (lookupEntry_removeKey_ne hk2p)
    rfl

/-- C1 counterexample: a document that parses as the v0.1 snapshot (serde
ignores unknown fields) but carries a stray ill-typed top-level `ticket`
entry.  Migrated with the `DontAsk` decision, the transform sets the
version to the current one, yet the result does not re-parse via
`Config::from_toml`: the stray `ticket` entry survives the migration and
fails the typed `ticket` table parse, so `from_toml` returns `ParseError`.
This refutes the claim as universally stated. -/
theorem c1_counterexample :
    (parse_v0_1 docV01Stray).isSome = true ∧
    (from_v0_1_update docV01Stray false AskForTicket.dontAsk false).map
      (fun d => getStr d "version") = some (some "0.2") ∧
    (from_v0_1_update docV01Stray false AskForTicket.dontAsk false).map
      from_toml = some (Except.error FromTomlError.ParseError) :=
  ⟨rfl, rfl, rfl⟩

/-- C1 (amended): for every document that parses as the v0.1 schema
snapshot and every decision set — provided that, when the decision says
not to ask for a ticket, any pre-existing top-level `ticket` entry is
absent or itself parses as a valid ticket table — the v0.1 migration
transform succeeds, the migrated document's `version` entry equals the
current version constant, and the migrated document parses successfully
via `Config::from_toml` into the current typed `Config`. -/
theorem c1_migration_reaches_current (doc : Doc) (c : ConfigV01)
    (switch_d : Bool) (ask : AskForTicket) (hash_d : Bool)
    (hparse : parse_v0_1 doc = some c)
    (hticket : ask = AskForTicket.dontAsk → (parseTicketAt doc).isSome = true) :
    ∃ doc2 cfg, from_v0_1_update doc switch_d ask hash_d = some doc2 ∧
      getStr doc2 "version" = some VERSION ∧
      from_toml doc2 = Except.ok cfg := by
  obtain ⟨hv, ht, hs, hm, hp⟩ := parse_v0_1_elim hparse
  obtain ⟨dv, hv'⟩ := getStr_eq_some hv
  obtain ⟨dt, xt, ht', htall⟩ := getStrArr_eq_some ht
  obtain ⟨ds, xs0, hs', hsall⟩ := getStrArr_eq_some hs
  obtain ⟨dm, hm'⟩ := getStr_eq_some hm
  obtain ⟨dp, xp, hp', hpall⟩ := getStrArr_eq_some hp
  obtain ⟨D1, hu1, hver1, keep1⟩ := update_version_bundle hv'
  have l1t := (keep1 "types" (by decide)).trans ht'
  have l1s := (keep1 "scopes" (by decide)).trans hs'
  have l1m := (keep1 "template" (by decide)).trans hm'
  have l1p := (keep1 "ticket_prefixes" (by decide)).trans hp'
  obtain ⟨D2, hu2, hty2, keep2⟩ := v01_update_types_bundle l1t htall
  have l2s := (keep2 "scopes" (by decide)).trans l1s
  have l2m := (keep2 "template" (by decide)).trans l1m
  have l2p := (keep2 "ticket_prefixes" (by decide)).trans l1p
  have hver2 := (getStr_congr (keep2 "version" (by decide))).trans hver1
  obtain ⟨D3, hu3, hsc3, keep3⟩ := v01_update_scopes_bundle switch_d l2s hsall
  have l3m := (keep3 "template" (by decide)).trans l2m
  have l3p := (keep3 "ticket_prefixes" (by decide)).trans l2p
  have hver3 := (getStr_congr (keep3 "version" (by decide))).trans hver2
  have hty3 := (parseTypesAt_congr (keep3 "types" (by decide))).trans hty2
  cases ask with
  | ask require =>
    obtain ⟨D4, lpref, hu4, htk4, keep4⟩ :=
      v01_update_ticket_bundle require hash_d l3p hpall
    have l4m := (keep4 "template" (by decide) (by decide)).trans l3m
    have hver4 :=
      (getStr_congr (keep4 "version" (by decide) (by decide))).trans hver3
    have hty4 :=
      (parseTypesAt_congr (keep4 "types" (by decide) (by decide))).trans hty3
    have hsc4 :=
      (parseScopesAt_congr (keep4 "scopes" (by decide) (by decide))).trans hsc3
    obtain ⟨D5, TT, hu5, htm5, keep5⟩ := v01_update_templates_bundle hash_d l4m
    have hver5 :=
      (getStr_congr (keep5 "version" (by decide) (by decide))).trans hver4
    have hty5 :=
      (parseTypesAt_congr (keep5 "types" (by decide) (by decide))).trans hty4
    have hsc5 :=
      (parseScopesAt_congr (keep5 "scopes" (by decide) (by decide))).trans hsc4
    have htk5 :=
      (parseTicketAt_congr (keep5 "ticket" (by decide) (by decide))).trans htk4
    have hchain : from_v0_1_update doc switch_d (AskForTicket.ask require)
        hash_d = some D5 := by
      simp [from_v0_1_update, hu1, hu2, hu3, hu4, hu5]
    exact ⟨D5, _, hchain, hver5,
      from_toml_current hver5 (parse_v0_2_intro hver5 hty5 hsc5 htk5 htm5)⟩
  | dontAsk =>
    obtain ⟨tk, htkdoc⟩ := Option.isSome_iff_exists.mp (hticket rfl)
    have keep4 : ∀ k2, k2 ≠ "ticket_prefixes" →
        lookupEntry (removeKey D3 "ticket_prefixes") k2 = lookupEntry D3 k2 :=
      fun k2 hk2 => lookupEntry_removeKey_ne hk2
    have l4m := (keep4 "template" (by decide)).trans l3m
    have hver4 := (getStr_congr (keep4 "version" (by decide))).trans hver3
    have hty4 := (parseTypesAt_congr (keep4 "types" (by decide))).trans hty3
    have hsc4 := (parseScopesAt_congr (keep4 "scopes" (by decide))).trans hsc3
    have htk4 : parseTicketAt (removeKey D3 "ticket_prefixes") = some tk := by
      have hkt : lookupEntry (removeKey D3 "ticket_prefixes") "ticket" =
          lookupEntry doc "ticket" :=
        ((keep4 "ticket" (by decide)).trans
          ((keep3 "ticket" (by decide)).trans
            ((keep2 "ticket" (by decide)).trans (keep1 "ticket" (by decide)))))
      exact (parseTicketAt_congr hkt).trans htkdoc
    obtain ⟨D5, TT, hu5, htm5, keep5⟩ := v01_update_templates_bundle hash_d l4m
    have hver5 :=
      (getStr_congr (keep5 "version" (by decide) (by decide))).trans hver4
    have hty5 :=
      (parseTypesAt_congr (keep5 "types" (by decide) (by decide))).trans hty4
    have hsc5 :=
      (parseScopesAt_congr (keep5 "scopes" (by decide) (by decide))).trans hsc4
    have htk5 :=
      (parseTicketAt_congr (keep5 "ticket" (by decide) (by decide))).trans htk4
    have hchain : from_v0_1_update doc switch_d AskForTicket.dontAsk hash_d =
        some D5 := by
      simp [from_v0_1_update, hu1, hu2, hu3, v01_remove_ticket, hu5]
    exact ⟨D5, _, hchain, hver5,
      from_toml_current hver5 (parse_v0_2_intro hver5 hty5 hsc5 htk5 htm5)⟩

/-- C1 witness: the small v0.1 document `docV01W` (no stray `ticket` key)
with the decisions of the spec's end-to-end example migrates to a
document that carries the current version and re-parses. -/
theorem c1_migration_reaches_current_witness :
    ∃ doc2 cfg,
      from_v0_1_update docV01W false (AskForTicket.ask true) true = some doc2 ∧
      getStr doc2 "version" = some VERSION ∧
      from_toml doc2 = Except.ok cfg :=
  c1_migration_reaches_current docV01W
    ⟨"0.1", ["feat adds a feature", "fix"], ["a", "b"], "t", [""]⟩
    false (AskForTicket.ask true) true (by rfl)
    (fun h => AskForTicket.noConfusion h)

end GitZ
